import Mathlib

/-!
Verification of the stellarspend-contracts batch processing contracts.

Each Soroban contract entry point is shallowly embedded as a Lean function over an
explicit state record.  A whole-call panic (failed precondition, unauthorized caller,
uninitialized contract) is modelled as `none`: the host reverts every state change and
event of a panicking call, so an aborted call returns no result, no new state, no
events and no recorded authorizations.  Machine integers are modelled as `Nat`/`Int`;
Rust `checked_add` on `i128` is an `Option`-valued addition, `u64` addition wraps
modulo `2 ^ 64`, and the unchecked `i128` addition of the batch-payment contract wraps
in two's complement.  Token balances are a map `token → account → Int`, and every
`require_auth()` effect is recorded in an authorization trace returned by the call.
-/

/-- Largest value of the Rust type i128. -/
def I128_MAX : Int := 2 ^ 127 - 1

/-- Smallest value of the Rust type i128. -/
def I128_MIN : Int := -(2 ^ 127)

/-- Rust i128 checked_add: the exact sum when it fits in i128, otherwise `none`. -/
def checkedAddI128 (a b : Int) : Option Int :=
  if I128_MIN ≤ a + b ∧ a + b ≤ I128_MAX then some (a + b) else none

/-- The aggregate-accumulation step `total.checked_add(a).unwrap_or(total)` used by the
batch-transfer and batch-conversion execution passes: on overflow the previous total is
kept and the addend is dropped. -/
def satAdd (total a : Int) : Int := (checkedAddI128 total a).getD total

/-- Folding satAdd over a list of item amounts starting from 0, as the execution passes
do for their per-batch aggregate. -/
def satFold (amounts : List Int) : Int := amounts.foldl satAdd 0

/-- Rust u64 wrapping addition (release-profile arithmetic). -/
def u64add (a b : Nat) : Nat := (a + b) % 2 ^ 64

/-- Rust i128 two's-complement wrapping of an unchecked addition result. -/
def wrapI128 (x : Int) : Int := (x + 2 ^ 127) % 2 ^ 128 - 2 ^ 127

namespace BatchTransfer

/-- MAX_BATCH_SIZE of contracts/batch-transfer/src/types.rs. -/
def MAX_BATCH_SIZE : Nat := 100

/-- TransferRequest of contracts/batch-transfer/src/types.rs. -/
structure TransferRequest where
  recipient : Nat
  amount : Int
deriving Repr, DecidableEq

/-- TransferResult of contracts/batch-transfer/src/types.rs. -/
inductive TransferResult where
  | success (recipient : Nat) (amount : Int)
  | failure (recipient : Nat) (amount : Int) (errorCode : Nat)
deriving Repr, DecidableEq

/-- The recipient echoed by either variant of a TransferResult. -/
def TransferResult.recipientOf : TransferResult → Nat
  | .success r _ => r
  | .failure r _ _ => r

/-- The amount echoed by either variant of a TransferResult. -/
def TransferResult.amountOf : TransferResult → Int
  | .success _ a => a
  | .failure _ a _ => a

/-- BatchTransferResult of contracts/batch-transfer/src/types.rs. -/
structure BatchTransferResult where
  total_requests : Nat
  successful : Nat
  failed : Nat
  total_transferred : Int
  results : List TransferResult
deriving Repr, DecidableEq

/-- The events published by TransferEvents in contracts/batch-transfer/src/types.rs. -/
inductive Event where
  | batchStarted (batchId itemCount : Nat)
  | transferSuccess (batchId recipient : Nat) (amount : Int)
  | transferFailure (batchId recipient : Nat) (amount : Int) (errorCode : Nat)
  | batchCompleted (batchId succCount failCount : Nat) (totalTransferred : Int)
deriving Repr, DecidableEq

/-- Instance storage of the batch-transfer contract (DataKey entries), together with the
external token balances consumed through token::Client. -/
structure State where
  admin : Option Nat
  totalBatches : Nat
  totalProcessed : Nat
  totalVolume : Int
  balance : Nat → Nat → Int

/-- State written by initialize(admin) on a fresh contract, with the ambient token
balances `bal`. -/
def initState (admin : Nat) (bal : Nat → Nat → Int) : State :=
  { admin := some admin, totalBatches := 0, totalProcessed := 0, totalVolume := 0,
    balance := bal }

/-- Modelled from the spec: contracts/batch-transfer/src/validation.rs is not present in
the source tree; per the spec, address validation accepts every address (as in the
sibling contracts, where soroban addresses are valid by construction). -/
def validate_address (_recipient : Nat) : Bool := true

/-- Modelled from the spec: contracts/batch-transfer/src/validation.rs is not present in
the source tree; per the spec an amount fails validation when it is not positive (a
"bad amount", e.g. a negative amount, is the documented invalid-amount failure). -/
def validate_amount (amount : Int) : Bool := decide (0 < amount)

/-- One step of the first (validation) pass of batch_transfer: the request together with
is_valid and the error_code recorded for it. -/
def validateRequest (r : TransferRequest) : TransferRequest × Bool × Nat :=
  if !validate_address r.recipient then (r, false, 0)
  else if !validate_amount r.amount then (r, false, 1)
  else (r, true, 0)

/-- Effect of token.transfer(src, dst, amount) on the balance map of token `tok`. -/
def tokenTransfer (bal : Nat → Nat → Int) (tok src dst : Nat) (amount : Int) :
    Nat → Nat → Int :=
  fun t a =>
    let afterSrc := fun t a => if t = tok ∧ a = src then bal t a - amount else bal t a
    if t = tok ∧ a = dst then afterSrc t a + amount else afterSrc t a

/-- Mutable locals of the second (execution) pass of batch_transfer. -/
structure Loop where
  results : List TransferResult
  succCount : Nat
  failCount : Nat
  total : Int
  avail : Int
  bal : Nat → Nat → Int
  events : List Event

/-- One iteration of the second pass of batch_transfer over a validated request. -/
def stepTransfer (caller tok batchId : Nat) (acc : Loop) :
    TransferRequest × Bool × Nat → Loop
  | (r, isValid, errorCode) =>
    if !isValid then
      { acc with
        results := acc.results ++ [TransferResult.failure r.recipient r.amount errorCode]
        failCount := acc.failCount + 1
        events := acc.events ++ [Event.transferFailure batchId r.recipient r.amount errorCode] }
    else if acc.avail < r.amount then
      { acc with
        results := acc.results ++ [TransferResult.failure r.recipient r.amount 2]
        failCount := acc.failCount + 1
        events := acc.events ++ [Event.transferFailure batchId r.recipient r.amount 2] }
    else
      { results := acc.results ++ [TransferResult.success r.recipient r.amount]
        succCount := acc.succCount + 1
        failCount := acc.failCount
        total := (checkedAddI128 acc.total r.amount).getD acc.total
        avail := acc.avail - r.amount
        bal := tokenTransfer acc.bal tok caller r.recipient r.amount
        events := acc.events ++ [Event.transferSuccess batchId r.recipient r.amount] }

/-- The final loop state of the execution pass of batch_transfer: the validated list is
folded through stepTransfer starting from the freshly initialized locals. -/
def transferFin (st : State) (caller tok : Nat) (transfers : List TransferRequest) : Loop :=
  (transfers.map validateRequest).foldl
    (stepTransfer caller tok (u64add st.totalBatches 1))
    { results := [], succCount := 0, failCount := 0, total := 0,
      avail := st.balance tok caller, bal := st.balance,
      events := [Event.batchStarted (u64add st.totalBatches 1) transfers.length] }

/-- The pipeline of batch_transfer once all preconditions have passed. -/
def runTransfer (st : State) (caller tok : Nat) (transfers : List TransferRequest) :
    BatchTransferResult × State × List Event × List Nat :=
  let fin := transferFin st caller tok transfers
  ({ total_requests := transfers.length, successful := fin.succCount,
     failed := fin.failCount, total_transferred := fin.total, results := fin.results },
   { st with
     totalBatches := u64add st.totalBatches 1,
     totalProcessed := u64add st.totalProcessed transfers.length,
     totalVolume := (checkedAddI128 fin.total st.totalVolume).getD I128_MAX,
     balance := fin.bal },
   fin.events ++ [Event.batchCompleted (u64add st.totalBatches 1) fin.succCount
     fin.failCount fin.total],
   [caller])

/-- batch_transfer of contracts/batch-transfer/src/lib.rs.  `none` models a whole-call
panic; the NotInitialized expect() and the Unauthorized panic of require_admin are both
`none`, so they fold into the single condition st.admin = some caller.  A successful
call returns the BatchTransferResult, the updated storage, the events published and the
addresses on which require_auth was invoked. -/
def batch_transfer (st : State) (caller tok : Nat) (transfers : List TransferRequest) :
    Option (BatchTransferResult × State × List Event × List Nat) :=
  if st.admin = some caller then
    if transfers.length = 0 then none
    else if transfers.length > MAX_BATCH_SIZE then none
    else some (runTransfer st caller tok transfers)
  else none

end BatchTransfer

namespace BatchConversion

/-- MAX_BATCH_SIZE of contracts/batch-conversion/src/types.rs. -/
def MAX_BATCH_SIZE : Nat := 100

/-- ConversionRequest of contracts/batch-conversion/src/types.rs. -/
structure ConversionRequest where
  user : Nat
  from_asset : Nat
  to_asset : Nat
  amount_in : Int
  min_amount_out : Int
deriving Repr, DecidableEq

/-- ConversionResult of contracts/batch-conversion/src/types.rs. -/
inductive ConversionResult where
  | success (user fromAsset toAsset : Nat) (amountIn amountOut : Int)
  | failure (user fromAsset toAsset : Nat) (amountIn : Int) (errorCode : Nat)
deriving Repr, DecidableEq

/-- The user echoed by either variant of a ConversionResult. -/
def ConversionResult.userOf : ConversionResult → Nat
  | .success u _ _ _ _ => u
  | .failure u _ _ _ _ => u

/-- The amount_in echoed by either variant of a ConversionResult. -/
def ConversionResult.amountInOf : ConversionResult → Int
  | .success _ _ _ a _ => a
  | .failure _ _ _ a _ => a

/-- BatchConversionResult of contracts/batch-conversion/src/types.rs. -/
structure BatchConversionResult where
  total_requests : Nat
  successful : Nat
  failed : Nat
  total_converted : Int
  results : List ConversionResult
deriving Repr, DecidableEq

/-- The events published by ConversionEvents in contracts/batch-conversion/src/types.rs. -/
inductive Event where
  | batchStarted (batchId itemCount : Nat)
  | conversionSuccess (batchId user fromAsset toAsset : Nat) (amountIn amountOut : Int)
  | conversionFailure (batchId user fromAsset toAsset : Nat) (amountIn : Int) (errorCode : Nat)
  | batchCompleted (batchId succCount failCount : Nat) (totalConverted : Int)
deriving Repr, DecidableEq

/-- Instance storage of the batch-conversion contract, together with the external token
balances (asset address → account → balance) consumed through token::Client. -/
structure State where
  totalBatches : Nat
  totalConversions : Nat
  totalVolume : Int
  balance : Nat → Nat → Int

/-- validate_amount of contracts/batch-conversion/src/validation.rs: an amount is
invalid when amount <= 0. -/
def validate_amount (amount : Int) : Bool := !decide (amount ≤ 0)

/-- validate_min_output of contracts/batch-conversion/src/validation.rs. -/
def validate_min_output (minAmountOut : Int) : Bool := !decide (minAmountOut ≤ 0)

/-- validate_address of contracts/batch-conversion/src/validation.rs: accepts every
address. -/
def validate_address (_a : Nat) : Bool := true

/-- validate_asset_pair of contracts/batch-conversion/src/validation.rs: fails when
from_asset equals to_asset. -/
def validate_asset_pair (fromAsset toAsset : Nat) : Bool := !decide (fromAsset = toAsset)

/-- One step of the first (validation) pass of batch_convert_currency. -/
def validateRequest (r : ConversionRequest) : ConversionRequest × Bool × Nat :=
  if !validate_address r.user then (r, false, 0)
  else if !validate_address r.from_asset then (r, false, 1)
  else if !validate_address r.to_asset then (r, false, 2)
  else if !validate_amount r.amount_in then (r, false, 3)
  else if !validate_min_output r.min_amount_out then (r, false, 4)
  else if !validate_asset_pair r.from_asset r.to_asset then (r, false, 5)
  else (r, true, 0)

/-- execute_conversion of contracts/batch-conversion/src/lib.rs: checks the user balance
in from_asset, then calls request.user.require_auth() (recorded in the returned auth
trace) and returns min_amount_out as the stubbed output amount.  No balance moves. -/
def execute_conversion (st : State) (r : ConversionRequest) : Except Nat Int × List Nat :=
  if st.balance r.from_asset r.user < r.amount_in then (Except.error 6, [])
  else (Except.ok r.min_amount_out, [r.user])

/-- Mutable locals of the second (execution) pass of batch_convert_currency. -/
structure Loop where
  results : List ConversionResult
  succCount : Nat
  failCount : Nat
  total : Int
  events : List Event
  auths : List Nat

/-- One iteration of the second pass of batch_convert_currency over a validated
request. -/
def stepConversion (st : State) (batchId : Nat) (acc : Loop) :
    ConversionRequest × Bool × Nat → Loop
  | (r, isValid, errorCode) =>
    if !isValid then
      { acc with
        results := acc.results ++
          [ConversionResult.failure r.user r.from_asset r.to_asset r.amount_in errorCode]
        failCount := acc.failCount + 1
        events := acc.events ++
          [Event.conversionFailure batchId r.user r.from_asset r.to_asset r.amount_in errorCode] }
    else
      match execute_conversion st r with
      | (Except.ok amountOut, au) =>
        { acc with
          results := acc.results ++
            [ConversionResult.success r.user r.from_asset r.to_asset r.amount_in amountOut]
          succCount := acc.succCount + 1
          total := (checkedAddI128 acc.total r.amount_in).getD acc.total
          events := acc.events ++
            [Event.conversionSuccess batchId r.user r.from_asset r.to_asset r.amount_in amountOut]
          auths := acc.auths ++ au }
      | (Except.error e, au) =>
        { acc with
          results := acc.results ++
            [ConversionResult.failure r.user r.from_asset r.to_asset r.amount_in e]
          failCount := acc.failCount + 1
          events := acc.events ++
            [Event.conversionFailure batchId r.user r.from_asset r.to_asset r.amount_in e]
          auths := acc.auths ++ au }

/-- The final loop state of the execution pass of batch_convert_currency. -/
def convFin (st : State) (conversions : List ConversionRequest) : Loop :=
  (conversions.map validateRequest).foldl
    (stepConversion st (u64add st.totalBatches 1))
    { results := [], succCount := 0, failCount := 0, total := 0,
      events := [Event.batchStarted (u64add st.totalBatches 1) conversions.length],
      auths := [] }

/-- The pipeline of batch_convert_currency once the batch-size preconditions passed. -/
def runConversion (st : State) (conversions : List ConversionRequest) :
    BatchConversionResult × State × List Event × List Nat :=
  let fin := convFin st conversions
  ({ total_requests := conversions.length, successful := fin.succCount,
     failed := fin.failCount, total_converted := fin.total, results := fin.results },
   { st with
     totalBatches := u64add st.totalBatches 1,
     totalConversions := u64add st.totalConversions conversions.length,
     totalVolume := (checkedAddI128 fin.total st.totalVolume).getD I128_MAX },
   fin.events ++ [Event.batchCompleted (u64add st.totalBatches 1) fin.succCount
     fin.failCount fin.total],
   fin.auths)

/-- batch_convert_currency of contracts/batch-conversion/src/lib.rs.  There is no
caller argument and no admin or initialization check; `none` models the EmptyBatch and
BatchTooLarge panics. -/
def batch_convert_currency (st : State) (conversions : List ConversionRequest) :
    Option (BatchConversionResult × State × List Event × List Nat) :=
  if conversions.length = 0 then none
  else if conversions.length > MAX_BATCH_SIZE then none
  else some (runConversion st conversions)

/-- Whether batch_convert_currency reaches the require_auth call for request `r`:
the request passes the validation pass and the balance check of execute_conversion. -/
def authorizes (st : State) (x : ConversionRequest × Bool × Nat) : Bool :=
  x.2.1 && !decide (st.balance x.1.from_asset x.1.user < x.1.amount_in)

/-- The requests of a batch that execute successfully (pass validation and the balance
check); exactly these trigger require_auth and contribute to the aggregate. -/
def execRequests (st : State) (conversions : List ConversionRequest) :
    List ConversionRequest :=
  conversions.filter (fun r => authorizes st (validateRequest r))

/-- The amount_in values accumulated into total_converted, in input order. -/
def execAmounts (st : State) (conversions : List ConversionRequest) : List Int :=
  (execRequests st conversions).map (fun r => r.amount_in)

end BatchConversion

namespace SavingsGoals

/-- MAX_BATCH_SIZE of contracts/savings-goals/src/types.rs. -/
def MAX_BATCH_SIZE : Nat := 100

/-- MIN_GOAL_AMOUNT of contracts/savings-goals/src/types.rs (1 XLM in stroops). -/
def MIN_GOAL_AMOUNT : Int := 10000000

/-- MAX_GOAL_AMOUNT of contracts/savings-goals/src/types.rs (1 billion XLM in stroops). -/
def MAX_GOAL_AMOUNT : Int := 1000000000000000000

/-- ErrorCode constants of contracts/savings-goals/src/types.rs. -/
def INVALID_AMOUNT : Nat := 0

/-- ErrorCode::INVALID_DEADLINE. -/
def INVALID_DEADLINE : Nat := 1

/-- ErrorCode::INVALID_INITIAL_CONTRIBUTION. -/
def INVALID_INITIAL_CONTRIBUTION : Nat := 2

/-- ErrorCode::INVALID_USER_ADDRESS. -/
def INVALID_USER_ADDRESS : Nat := 4

/-- SavingsGoalRequest of contracts/savings-goals/src/types.rs; goal_name (a Symbol) is
modelled as an opaque identifier. -/
structure SavingsGoalRequest where
  user : Nat
  goal_name : Nat
  target_amount : Int
  deadline : Nat
  initial_contribution : Int
deriving Repr, DecidableEq

/-- SavingsGoal of contracts/savings-goals/src/types.rs. -/
structure SavingsGoal where
  goal_id : Nat
  user : Nat
  goal_name : Nat
  target_amount : Int
  current_amount : Int
  deadline : Nat
  created_at : Nat
  is_active : Bool
deriving Repr, DecidableEq

/-- GoalResult of contracts/savings-goals/src/types.rs. -/
inductive GoalResult where
  | success (goal : SavingsGoal)
  | failure (user : Nat) (errorCode : Nat)
deriving Repr, DecidableEq

/-- The user echoed by either variant of a GoalResult. -/
def GoalResult.userOf : GoalResult → Nat
  | .success g => g.user
  | .failure u _ => u

/-- BatchGoalMetrics of contracts/savings-goals/src/types.rs. -/
structure BatchGoalMetrics where
  total_requests : Nat
  successful_goals : Nat
  failed_goals : Nat
  total_target_amount : Int
  total_initial_contributions : Int
  avg_goal_amount : Int
  processed_at : Nat
deriving Repr, DecidableEq

/-- BatchGoalResult of contracts/savings-goals/src/types.rs. -/
structure BatchGoalResult where
  batch_id : Nat
  total_requests : Nat
  successful : Nat
  failed : Nat
  results : List GoalResult
  metrics : BatchGoalMetrics
deriving Repr, DecidableEq

/-- The events published by GoalEvents in contracts/savings-goals/src/types.rs. -/
inductive Event where
  | batchStarted (batchId itemCount : Nat)
  | goalCreated (batchId goalId user : Nat) (targetAmount : Int)
  | goalCreationFailed (batchId user errorCode : Nat)
  | highValueGoal (batchId goalId : Nat) (amount : Int)
  | batchCompleted (batchId succCount failCount : Nat) (totalAmount : Int)
deriving Repr, DecidableEq

/-- Storage of the savings-goals contract (instance counters, persistent goal map and
per-user goal lists) together with the ledger sequence read by env.ledger(). -/
structure State where
  admin : Option Nat
  lastBatchId : Nat
  lastGoalId : Nat
  totalGoalsCreated : Nat
  totalBatchesProcessed : Nat
  goals : Nat → Option SavingsGoal
  userGoals : Nat → List Nat
  currentLedger : Nat

/-- State written by initialize(admin) on a fresh contract at ledger sequence
`ledger`. -/
def initState (admin ledger : Nat) : State :=
  { admin := some admin, lastBatchId := 0, lastGoalId := 0, totalGoalsCreated := 0,
    totalBatchesProcessed := 0, goals := fun _ => none, userGoals := fun _ => [],
    currentLedger := ledger }

/-- is_valid_address of contracts/savings-goals/src/validation.rs: always true. -/
def is_valid_address (_user : Nat) : Bool := true

/-- is_valid_amount of contracts/savings-goals/src/validation.rs. -/
def is_valid_amount (amount : Int) : Bool :=
  decide (MIN_GOAL_AMOUNT ≤ amount) && decide (amount ≤ MAX_GOAL_AMOUNT)

/-- is_valid_deadline of contracts/savings-goals/src/validation.rs: the deadline must be
strictly in the future and at most 31536000 ledgers ahead. -/
def is_valid_deadline (currentLedger deadline : Nat) : Bool :=
  if deadline ≤ currentLedger then false
  else if currentLedger + 31536000 < deadline then false
  else true

/-- is_valid_initial_contribution of contracts/savings-goals/src/validation.rs. -/
def is_valid_initial_contribution (initialContribution targetAmount : Int) : Bool :=
  if initialContribution < 0 then false
  else if targetAmount < initialContribution then false
  else true

/-- validate_goal_request of contracts/savings-goals/src/validation.rs; `none` is Ok,
`some code` is Err(code). -/
def validate_goal_request (currentLedger : Nat) (r : SavingsGoalRequest) : Option Nat :=
  if !is_valid_address r.user then some INVALID_USER_ADDRESS
  else if !is_valid_amount r.target_amount then some INVALID_AMOUNT
  else if !is_valid_deadline currentLedger r.deadline then some INVALID_DEADLINE
  else if !is_valid_initial_contribution r.initial_contribution r.target_amount then
    some INVALID_INITIAL_CONTRIBUTION
  else none

/-- Mutable locals of the processing loop of batch_set_savings_goals. -/
structure Loop where
  results : List GoalResult
  succCount : Nat
  failCount : Nat
  totalTarget : Int
  totalInit : Int
  goalCounter : Nat
  goals : Nat → Option SavingsGoal
  userGoals : Nat → List Nat
  events : List Event

/-- One iteration of the processing loop of batch_set_savings_goals. -/
def stepGoal (batchId currentLedger : Nat) (acc : Loop) (r : SavingsGoalRequest) : Loop :=
  match validate_goal_request currentLedger r with
  | none =>
    let gid := u64add acc.goalCounter 1
    let goal : SavingsGoal :=
      { goal_id := gid, user := r.user, goal_name := r.goal_name,
        target_amount := r.target_amount, current_amount := r.initial_contribution,
        deadline := r.deadline, created_at := currentLedger, is_active := true }
    { results := acc.results ++ [GoalResult.success goal]
      succCount := acc.succCount + 1
      failCount := acc.failCount
      totalTarget := (checkedAddI128 acc.totalTarget r.target_amount).getD I128_MAX
      totalInit := (checkedAddI128 acc.totalInit r.initial_contribution).getD I128_MAX
      goalCounter := gid
      goals := fun g => if g = gid then some goal else acc.goals g
      userGoals := fun u => if u = r.user then acc.userGoals u ++ [gid] else acc.userGoals u
      events := acc.events ++ [Event.goalCreated batchId gid r.user r.target_amount] ++
        (if 1000000000000 ≤ r.target_amount then
          [Event.highValueGoal batchId gid r.target_amount] else []) }
  | some errorCode =>
    { acc with
      failCount := acc.failCount + 1
      events := acc.events ++ [Event.goalCreationFailed batchId r.user errorCode]
      results := acc.results ++ [GoalResult.failure r.user errorCode] }

/-- The final loop state of the processing loop of batch_set_savings_goals; the auth
trace of the call records the single caller.require_auth() at the top of the entry
point. -/
def goalsFin (st : State) (requests : List SavingsGoalRequest) : Loop :=
  requests.foldl (stepGoal (u64add st.lastBatchId 1) st.currentLedger)
    { results := [], succCount := 0, failCount := 0, totalTarget := 0, totalInit := 0,
      goalCounter := st.lastGoalId, goals := st.goals, userGoals := st.userGoals,
      events := [Event.batchStarted (u64add st.lastBatchId 1) requests.length] }

/-- The pipeline of batch_set_savings_goals once all preconditions have passed. -/
def runGoals (st : State) (caller : Nat) (requests : List SavingsGoalRequest) :
    BatchGoalResult × State × List Event × List Nat :=
  let fin := goalsFin st requests
  let avg := if 0 < fin.succCount then fin.totalTarget.tdiv (Int.ofNat fin.succCount) else 0
  let metrics : BatchGoalMetrics :=
    { total_requests := requests.length, successful_goals := fin.succCount,
      failed_goals := fin.failCount, total_target_amount := fin.totalTarget,
      total_initial_contributions := fin.totalInit, avg_goal_amount := avg,
      processed_at := st.currentLedger }
  ({ batch_id := u64add st.lastBatchId 1, total_requests := requests.length,
     successful := fin.succCount, failed := fin.failCount, results := fin.results,
     metrics := metrics },
   { st with
     lastBatchId := u64add st.lastBatchId 1, lastGoalId := fin.goalCounter,
     totalGoalsCreated := u64add st.totalGoalsCreated fin.succCount,
     totalBatchesProcessed := u64add st.totalBatchesProcessed 1,
     goals := fin.goals, userGoals := fin.userGoals },
   fin.events ++ [Event.batchCompleted (u64add st.lastBatchId 1) fin.succCount
     fin.failCount fin.totalTarget],
   [caller])

/-- batch_set_savings_goals of contracts/savings-goals/src/lib.rs.  `none` models a
whole-call panic; the NotInitialized expect() and the Unauthorized panic of
require_admin are both `none`, so they fold into the single condition
st.admin = some caller. -/
def batch_set_savings_goals (st : State) (caller : Nat) (requests : List SavingsGoalRequest) :
    Option (BatchGoalResult × State × List Event × List Nat) :=
  if st.admin = some caller then
    if requests.length = 0 then none
    else if requests.length > MAX_BATCH_SIZE then none
    else some (runGoals st caller requests)
  else none

/-- The record invariant claimed for every stored SavingsGoal: bounded amounts, a
deadline strictly after the creation ledger, and an active flag. -/
def GoalInvariant (g : SavingsGoal) : Prop :=
  0 ≤ g.current_amount ∧ g.current_amount ≤ g.target_amount ∧
  MIN_GOAL_AMOUNT ≤ g.target_amount ∧ g.target_amount ≤ MAX_GOAL_AMOUNT ∧
  g.created_at < g.deadline ∧ g.is_active = true

/-- A stored goal is exactly the record batch_set_savings_goals builds from request `r`
at ledger sequence `cur` (up to its allocated goal_id). -/
def CreatedFrom (cur : Nat) (r : SavingsGoalRequest) (g : SavingsGoal) : Prop :=
  g.user = r.user ∧ g.goal_name = r.goal_name ∧ g.target_amount = r.target_amount ∧
  g.current_amount = r.initial_contribution ∧ g.deadline = r.deadline ∧
  g.created_at = cur ∧ g.is_active = true

/-- How the result at position i echoes request i: a valid request yields a Success
carrying the goal built from it, an invalid one yields Failure(user, error_code). -/
def GoalEcho (cur : Nat) (r : SavingsGoalRequest) (res : GoalResult) : Prop :=
  (validate_goal_request cur r = none →
    ∃ g, res = GoalResult.success g ∧ CreatedFrom cur r g) ∧
  (∀ c, validate_goal_request cur r = some c → res = GoalResult.failure r.user c)

end SavingsGoals

namespace BudgetAllocation

/-- BudgetRequest of contracts/budget-allocation/src/types.rs. -/
structure BudgetRequest where
  user : Nat
  amount : Int
deriving Repr, DecidableEq

/-- BudgetRecord of contracts/budget-allocation/src/types.rs. -/
structure BudgetRecord where
  user : Nat
  amount : Int
  last_updated : Nat
deriving Repr, DecidableEq

/-- BatchBudgetResult of contracts/budget-allocation/src/types.rs. -/
structure BatchBudgetResult where
  successful : Nat
  failed : Nat
  total_amount : Int
deriving Repr, DecidableEq

/-- The events published by batch_allocate_budget. -/
inductive Event where
  | budgetFailed (user : Nat) (amount : Int)
  | budgetSet (user : Nat) (amount : Int)
deriving Repr, DecidableEq

/-- Storage of the budget-allocation contract plus the ledger timestamp it reads. -/
structure State where
  admin : Option Nat
  budgets : Nat → Option BudgetRecord
  timestamp : Nat

/-- Mutable locals of the loop of batch_allocate_budget. -/
structure Loop where
  succCount : Nat
  failCount : Nat
  total : Int
  budgets : Nat → Option BudgetRecord
  events : List Event

/-- One iteration of the loop of batch_allocate_budget. -/
def stepAlloc (currentTime : Nat) (acc : Loop) (r : BudgetRequest) : Loop :=
  if r.amount < 0 then
    { acc with
      failCount := acc.failCount + 1
      events := acc.events ++ [Event.budgetFailed r.user r.amount] }
  else
    { succCount := acc.succCount + 1
      failCount := acc.failCount
      total := (checkedAddI128 acc.total r.amount).getD I128_MAX
      budgets := fun u =>
        if u = r.user then
          some { user := r.user, amount := r.amount, last_updated := currentTime }
        else acc.budgets u
      events := acc.events ++ [Event.budgetSet r.user r.amount] }

/-- batch_allocate_budget of contracts/budget-allocation/src/lib.rs.  Note the source
has no batch-size precondition: only authorization and initialization are checked, and
an empty request list is processed normally. -/
def batch_allocate_budget (st : State) (admin : Nat) (requests : List BudgetRequest) :
    Option (BatchBudgetResult × State × List Event × List Nat) :=
  if st.admin = some admin then
    let fin := requests.foldl (stepAlloc st.timestamp)
      { succCount := 0, failCount := 0, total := 0, budgets := st.budgets, events := [] }
    some ({ successful := fin.succCount, failed := fin.failCount, total_amount := fin.total },
      { st with budgets := fin.budgets }, fin.events, [admin])
  else none

end BudgetAllocation

namespace BatchPayment

/-- Payment of contracts/batch-payment/src/types.rs. -/
structure Payment where
  recipient : Nat
  amount : Int
deriving Repr, DecidableEq

/-- One token.transfer executed through the token client. -/
structure TransferEff where
  src : Nat
  dst : Nat
  amount : Int
deriving Repr, DecidableEq

/-- The events published by batch_transfer of the batch-payment contract. -/
inductive Event where
  | payment (batchId recipient tok : Nat) (amount : Int)
  | batchComplete (batchId count : Nat) (totalAmount : Int)
deriving Repr, DecidableEq

/-- The loop of the batch-payment batch_transfer: panics (`none`) on the first
non-positive amount, otherwise executes one token transfer and one payment event per
item while accumulating the unchecked (wrapping) i128 running total and the count. -/
def payLoop (src tok batchId : Nat) :
    List Payment → List TransferEff → List Event → Int → Nat →
      Option (List TransferEff × List Event × Int × Nat)
  | [], trs, evs, total, count => some (trs, evs, total, count)
  | p :: rest, trs, evs, total, count =>
    if p.amount ≤ 0 then none
    else payLoop src tok batchId rest
      (trs ++ [{ src := src, dst := p.recipient, amount := p.amount }])
      (evs ++ [Event.payment batchId p.recipient tok p.amount])
      (wrapI128 (total + p.amount)) (count + 1)

/-- batch_transfer of contracts/batch-payment/src/lib.rs.  `ledgerSeq` is the ledger
sequence used as the pseudo batch id; a panic anywhere in the loop voids the whole call
(`none`), otherwise the transfers executed, the events published (ending with the batch
completion event) and the auth trace (the single from.require_auth()) are returned. -/
def batch_transfer (src tok ledgerSeq : Nat) (payments : List Payment) :
    Option (List TransferEff × List Event × List Nat) :=
  match payLoop src tok ledgerSeq payments [] [] 0 0 with
  | none => none
  | some (trs, evs, total, count) =>
    some (trs, evs ++ [Event.batchComplete ledgerSeq count total], [src])

end BatchPayment

namespace BatchNotify

/-- NotificationPayload of contracts/batch-notifications/src/types.rs. -/
structure NotificationPayload where
  user : Nat
  message : String
deriving Repr, DecidableEq

/-- BatchResult of contracts/batch-notifications/src/types.rs. -/
structure BatchResult where
  successful_count : Nat
  failed_addresses : List Nat
deriving Repr, DecidableEq

/-- The notif event published per delivered payload. -/
inductive Event where
  | notif (user : Nat) (message : String)
deriving Repr, DecidableEq

/-- The loop of execute_dispatch of contracts/batch-notifications/src/logic.rs. -/
def dispatchLoop : List NotificationPayload → Nat → List Nat → List Event →
    BatchResult × List Event
  | [], succCount, failures, evs =>
    ({ successful_count := succCount, failed_addresses := failures }, evs)
  | p :: rest, succCount, failures, evs =>
    if !p.message.isEmpty then
      dispatchLoop rest (succCount + 1) failures (evs ++ [Event.notif p.user p.message])
    else
      dispatchLoop rest succCount (failures ++ [p.user]) evs

/-- execute_dispatch of contracts/batch-notifications/src/logic.rs. -/
def execute_dispatch (payloads : List NotificationPayload) : BatchResult × List Event :=
  dispatchLoop payloads 0 [] []

/-- batch_notify of contracts/batch-notifications/src/lib.rs: requires the admin auth
and runs execute_dispatch.  It never panics for any payload list. -/
def batch_notify (admin : Nat) (payloads : List NotificationPayload) :
    BatchResult × List Event × List Nat :=
  let (r, evs) := execute_dispatch payloads
  (r, evs, [admin])

end BatchNotify

namespace Recommend

/-- UserProfile of the budget-recommendations contract, as exercised by
contracts/budget-recommendations/src/test.rs. -/
structure UserProfile where
  user_id : Nat
  monthly_income : Int
  monthly_expenses : Int
  savings_balance : Int
  risk_tolerance : Nat
deriving Repr, DecidableEq

/-- Modelled from the spec: the budget-recommendations contract source (the lib.rs that
implements generate_batch_recommendations and the Decision Engine) is not present under
src, only its tests.  Per the spec the engine classifies risk tier 1..5 into
conservative (1-2), moderate (3) and aggressive (4-5) and sizes the emergency fund at
about 6 months of expenses for the conservative band, 4-5 for moderate and 3 for
aggressive; the tests assert a strictly larger target for tier 1 than for tier 5. -/
def emergencyMonths (riskTolerance : Nat) : Int :=
  if riskTolerance ≤ 2 then 6 else if riskTolerance = 3 then 4 else 3

/-- Modelled from the spec: emergency_fund_target of the Decision Engine is the number
of months for the profile's risk band times the monthly expenses. -/
def emergency_fund_target (p : UserProfile) : Int :=
  p.monthly_expenses * emergencyMonths p.risk_tolerance

end Recommend

/-- A concrete token-balance map for concrete evaluations: every account holds 1000
units of every token. -/
def exBal : Nat → Nat → Int := fun _ _ => 1000

/-- A freshly initialized batch-transfer contract with admin 1. -/
def exTransferSt : BatchTransfer.State := BatchTransfer.initState 1 exBal

/-- A fresh batch-conversion contract state over the example balances. -/
def exConvSt : BatchConversion.State :=
  { totalBatches := 0, totalConversions := 0, totalVolume := 0, balance := exBal }

/-- A freshly initialized savings-goals contract with admin 1 at ledger sequence 50. -/
def exGoalsSt : SavingsGoals.State := SavingsGoals.initState 1 50

/-- A freshly initialized budget-allocation contract with admin 1. -/
def exAllocSt : BudgetAllocation.State :=
  { admin := some 1, budgets := fun _ => none, timestamp := 7 }

/-- A conversion-contract state in which every account holds the i128 maximum of every
asset, used to drive the aggregate accumulator into overflow. -/
def maxConvSt : BatchConversion.State :=
  { totalBatches := 0, totalConversions := 0, totalVolume := 0,
    balance := fun _ _ => I128_MAX }

theorem checkedAddI128_getD_nonneg {t a : Int} (ht : 0 ≤ t) (ha : 0 ≤ a) :
    0 ≤ (checkedAddI128 t a).getD t := by
  unfold checkedAddI128
  by_cases hc : I128_MIN ≤ t + a ∧ t + a ≤ I128_MAX
  · rw [if_pos hc, Option.getD_some]
    omega
  · rw [if_neg hc, Option.getD_none]
    exact ht

theorem satAdd_nonneg {t a : Int} (ht : 0 ≤ t) (ha : 0 ≤ a) : 0 ≤ satAdd t a :=
  checkedAddI128_getD_nonneg ht ha

theorem satAdd_of_le {t a : Int} (ht : 0 ≤ t) (ha : 0 ≤ a) (hle : t + a ≤ I128_MAX) :
    satAdd t a = t + a := by
  unfold satAdd checkedAddI128
  rw [if_pos ⟨by unfold I128_MIN; omega, hle⟩, Option.getD_some]

theorem foldl_satAdd_nonneg (l : List Int) :
    ∀ t : Int, (∀ a ∈ l, 0 ≤ a) → 0 ≤ t → 0 ≤ l.foldl satAdd t := by
  induction l with
  | nil => intro t _ ht; simpa using ht
  | cons a rest ih =>
    intro t hall ht
    simp only [List.foldl_cons]
    exact ih _ (fun b hb => hall b (List.mem_cons_of_mem _ hb))
      (satAdd_nonneg ht (hall a (List.mem_cons_self _ _)))

theorem foldl_satAdd_eq_sum (l : List Int) :
    ∀ t : Int, (∀ a ∈ l, 0 ≤ a) → 0 ≤ t → t + l.sum ≤ I128_MAX →
      l.foldl satAdd t = t + l.sum := by
  induction l with
  | nil => intro t _ _ _; simp
  | cons a rest ih =>
    intro t hall ht hsum
    have ha : 0 ≤ a := hall a (List.mem_cons_self _ _)
    have hrest : ∀ b ∈ rest, 0 ≤ b := fun b hb => hall b (List.mem_cons_of_mem _ hb)
    have hrsum : 0 ≤ rest.sum := List.sum_nonneg hrest
    have hsum' : t + a + rest.sum ≤ I128_MAX := by
      simp only [List.sum_cons] at hsum
      omega
    simp only [List.foldl_cons, List.sum_cons]
    rw [satAdd_of_le ht ha (by omega), ih (t + a) hrest (by omega) hsum']
    ring

theorem filterOfMap {α β : Type} (f : α → β) (p : β → Bool) (l : List α) :
    (l.map f).filter p = (l.filter (fun a => p (f a))).map f := by
  induction l with
  | nil => rfl
  | cons a rest ih =>
    simp only [List.map_cons, List.filter_cons, ih]
    by_cases hp : p (f a) <;> simp [hp]

namespace BatchTransfer

theorem validateRequest_fst (r : TransferRequest) : (validateRequest r).1 = r := by
  unfold validateRequest
  split
  · rfl
  · split <;> rfl

theorem validateRequest_valid_pos (r : TransferRequest) :
    (validateRequest r).2.1 = true → 0 < r.amount := by
  intro h
  by_contra hneg
  have hfa : validate_amount r.amount = false := by
    simp only [validate_amount, decide_eq_false_iff_not]
    exact hneg
  simp [validateRequest, validate_address, hfa] at h

theorem stepTransfer_shape (caller tok batchId : Nat) (acc : Loop)
    (x : TransferRequest × Bool × Nat) :
    ∃ res, (stepTransfer caller tok batchId acc x).results = acc.results ++ [res] ∧
      res.recipientOf = x.1.recipient ∧ res.amountOf = x.1.amount ∧
      (stepTransfer caller tok batchId acc x).succCount +
        (stepTransfer caller tok batchId acc x).failCount =
        acc.succCount + acc.failCount + 1 := by
  obtain ⟨r, v, c⟩ := x
  cases v with
  | false =>
    exact ⟨TransferResult.failure r.recipient r.amount c, by simp [stepTransfer], rfl, rfl,
      by simp [stepTransfer]; omega⟩
  | true =>
    by_cases h : acc.avail < r.amount
    · exact ⟨TransferResult.failure r.recipient r.amount 2, by simp [stepTransfer, h], rfl, rfl,
        by simp [stepTransfer, h]; omega⟩
    · exact ⟨TransferResult.success r.recipient r.amount, by simp [stepTransfer, h], rfl, rfl,
        by simp [stepTransfer, h]; omega⟩

theorem transferLoop_spec (caller tok batchId : Nat) (l : List (TransferRequest × Bool × Nat)) :
    ∀ acc : Loop, ∃ out,
      (l.foldl (stepTransfer caller tok batchId) acc).results = acc.results ++ out ∧
      List.Forall₂ (fun x res => TransferResult.recipientOf res = x.1.recipient ∧
        TransferResult.amountOf res = x.1.amount) l out ∧
      (l.foldl (stepTransfer caller tok batchId) acc).succCount +
        (l.foldl (stepTransfer caller tok batchId) acc).failCount =
        acc.succCount + acc.failCount + l.length := by
  induction l with
  | nil => intro acc; exact ⟨[], by simp, List.Forall₂.nil, by simp⟩
  | cons x rest ih =>
    intro acc
    obtain ⟨res, hres, hrec, hamt, hcnt⟩ := stepTransfer_shape caller tok batchId acc x
    obtain ⟨out, hres', hf, hcnt'⟩ := ih (stepTransfer caller tok batchId acc x)
    refine ⟨res :: out, ?_, List.Forall₂.cons ⟨hrec, hamt⟩ hf, ?_⟩
    · simp only [List.foldl_cons, hres', hres, List.append_assoc, List.singleton_append]
    · simp only [List.foldl_cons, hcnt', hcnt, List.length_cons]
      omega

theorem transferLoop_total_nonneg (caller tok batchId : Nat)
    (l : List (TransferRequest × Bool × Nat)) :
    ∀ acc : Loop, (∀ x ∈ l, x.2.1 = true → 0 < x.1.amount) → 0 ≤ acc.total →
      0 ≤ (l.foldl (stepTransfer caller tok batchId) acc).total := by
  induction l with
  | nil => intro acc _ h0; simpa using h0
  | cons x rest ih =>
    intro acc hall h0
    simp only [List.foldl_cons]
    refine ih _ (fun y hy => hall y (List.mem_cons_of_mem _ hy)) ?_
    obtain ⟨r, v, c⟩ := x
    cases v with
    | false => simpa [stepTransfer] using h0
    | true =>
      have hpos : 0 < r.amount := hall (r, true, c) (List.mem_cons_self _ _) rfl
      by_cases h : acc.avail < r.amount
      · simpa [stepTransfer, h] using h0
      · have htot : (stepTransfer caller tok batchId acc (r, true, c)).total =
            (checkedAddI128 acc.total r.amount).getD acc.total := by
          simp [stepTransfer, h]
        rw [htot]
        exact checkedAddI128_getD_nonneg h0 (le_of_lt hpos)

theorem batch_transfer_some {st : State} {caller tok : Nat} {transfers : List TransferRequest}
    {v : BatchTransferResult × State × List Event × List Nat}
    (h : batch_transfer st caller tok transfers = some v) :
    st.admin = some caller ∧ transfers.length ≠ 0 ∧ transfers.length ≤ MAX_BATCH_SIZE ∧
      v = runTransfer st caller tok transfers := by
  unfold batch_transfer at h
  by_cases h1 : st.admin = some caller
  · rw [if_pos h1] at h
    by_cases h2 : transfers.length = 0
    · rw [if_pos h2] at h
      exact absurd h (by simp)
    · rw [if_neg h2] at h
      by_cases h3 : transfers.length > MAX_BATCH_SIZE
      · rw [if_pos h3] at h
        exact absurd h (by simp)
      · rw [if_neg h3] at h
        exact ⟨h1, h2, by omega, (Option.some.inj h).symm⟩
  · rw [if_neg h1] at h
    exact absurd h (by simp)

theorem transferFin_results (st : State) (caller tok : Nat) (transfers : List TransferRequest) :
    List.Forall₂ (fun r res => TransferResult.recipientOf res = r.recipient ∧
      TransferResult.amountOf res = r.amount) transfers
      (transferFin st caller tok transfers).results := by
  obtain ⟨out, hres, hf, hcnt⟩ := transferLoop_spec caller tok (u64add st.totalBatches 1)
    (transfers.map validateRequest)
    { results := [], succCount := 0, failCount := 0, total := 0,
      avail := st.balance tok caller, bal := st.balance,
      events := [Event.batchStarted (u64add st.totalBatches 1) transfers.length] }
  have hout : (transferFin st caller tok transfers).results = out := by
    simpa [transferFin] using hres
  rw [hout]
  rw [List.forall₂_map_left_iff] at hf
  exact hf.imp (fun a b hab => by rwa [validateRequest_fst] at hab)

theorem transferFin_counts (st : State) (caller tok : Nat) (transfers : List TransferRequest) :
    (transferFin st caller tok transfers).succCount +
      (transferFin st caller tok transfers).failCount = transfers.length := by
  obtain ⟨out, hres, hf, hcnt⟩ := transferLoop_spec caller tok (u64add st.totalBatches 1)
    (transfers.map validateRequest)
    { results := [], succCount := 0, failCount := 0, total := 0,
      avail := st.balance tok caller, bal := st.balance,
      events := [Event.batchStarted (u64add st.totalBatches 1) transfers.length] }
  simpa [transferFin, List.length_map] using hcnt

theorem transferFin_total_nonneg (st : State) (caller tok : Nat)
    (transfers : List TransferRequest) :
    0 ≤ (transferFin st caller tok transfers).total := by
  unfold transferFin
  refine transferLoop_total_nonneg caller tok (u64add st.totalBatches 1)
    (transfers.map validateRequest) _ ?_ (le_refl 0)
  intro x hx hv
  obtain ⟨r, hr, hxr⟩ := List.mem_map.1 hx
  subst hxr
  rw [validateRequest_fst]
  exact validateRequest_valid_pos r hv

end BatchTransfer

namespace BatchConversion

theorem convValidateRequest_fst (r : ConversionRequest) : (validateRequest r).1 = r := by
  unfold validateRequest
  split
  · rfl
  split
  · rfl
  split
  · rfl
  split
  · rfl
  split
  · rfl
  split
  · rfl
  · rfl

theorem convValidateRequest_valid_pos (r : ConversionRequest) :
    (validateRequest r).2.1 = true → 0 < r.amount_in := by
  intro h
  by_contra hneg
  have hfa : validate_amount r.amount_in = false := by
    simp [validate_amount]
    omega
  simp [validateRequest, validate_address, hfa] at h

theorem stepConversion_spec (st : State) (batchId : Nat) (acc : Loop)
    (x : ConversionRequest × Bool × Nat) :
    ∃ res, (stepConversion st batchId acc x).results = acc.results ++ [res] ∧
      res.userOf = x.1.user ∧ res.amountInOf = x.1.amount_in ∧
      (stepConversion st batchId acc x).succCount +
        (stepConversion st batchId acc x).failCount =
        acc.succCount + acc.failCount + 1 ∧
      (stepConversion st batchId acc x).auths =
        acc.auths ++ (if authorizes st x then [x.1.user] else []) ∧
      (stepConversion st batchId acc x).total =
        (if authorizes st x then satAdd acc.total x.1.amount_in else acc.total) := by
  obtain ⟨r, v, c⟩ := x
  cases v with
  | false =>
    have hx : authorizes st (r, false, c) = false := by simp [authorizes]
    refine ⟨ConversionResult.failure r.user r.from_asset r.to_asset r.amount_in c,
      ?_, rfl, rfl, ?_, ?_, ?_⟩
    · simp [stepConversion]
    · simp [stepConversion]
      omega
    · simp [stepConversion, hx]
    · simp [stepConversion, hx]
  | true =>
    by_cases hb : st.balance r.from_asset r.user < r.amount_in
    · have hx : authorizes st (r, true, c) = false := by simp [authorizes, hb]
      refine ⟨ConversionResult.failure r.user r.from_asset r.to_asset r.amount_in 6,
        ?_, rfl, rfl, ?_, ?_, ?_⟩
      · simp [stepConversion, execute_conversion, hb]
      · simp [stepConversion, execute_conversion, hb]
        omega
      · simp [stepConversion, execute_conversion, hb, hx]
      · simp [stepConversion, execute_conversion, hb, hx]
    · have hx : authorizes st (r, true, c) = true := by simp [authorizes, hb]
      refine ⟨ConversionResult.success r.user r.from_asset r.to_asset r.amount_in
        r.min_amount_out, ?_, rfl, rfl, ?_, ?_, ?_⟩
      · simp [stepConversion, execute_conversion, hb]
      · simp [stepConversion, execute_conversion, hb]
        omega
      · simp [stepConversion, execute_conversion, hb, hx]
      · simp [stepConversion, execute_conversion, hb, hx, satAdd]

theorem convLoop_spec (st : State) (batchId : Nat)
    (l : List (ConversionRequest × Bool × Nat)) :
    ∀ acc : Loop, ∃ out,
      (l.foldl (stepConversion st batchId) acc).results = acc.results ++ out ∧
      List.Forall₂ (fun x res => ConversionResult.userOf res = x.1.user ∧
        ConversionResult.amountInOf res = x.1.amount_in) l out ∧
      (l.foldl (stepConversion st batchId) acc).succCount +
        (l.foldl (stepConversion st batchId) acc).failCount =
        acc.succCount + acc.failCount + l.length ∧
      (l.foldl (stepConversion st batchId) acc).auths =
        acc.auths ++ (l.filter (fun x => authorizes st x)).map (fun x => x.1.user) ∧
      (l.foldl (stepConversion st batchId) acc).total =
        ((l.filter (fun x => authorizes st x)).map (fun x => x.1.amount_in)).foldl
          satAdd acc.total := by
  induction l with
  | nil => intro acc; exact ⟨[], by simp, List.Forall₂.nil, by simp, by simp, by simp⟩
  | cons x rest ih =>
    intro acc
    obtain ⟨res, hres, hu, ham, hcnt, hau, htot⟩ := stepConversion_spec st batchId acc x
    obtain ⟨out, hres', hf, hcnt', hau', htot'⟩ := ih (stepConversion st batchId acc x)
    refine ⟨res :: out, ?_, List.Forall₂.cons ⟨hu, ham⟩ hf, ?_, ?_, ?_⟩
    · simp only [List.foldl_cons, hres', hres, List.append_assoc, List.singleton_append]
    · simp only [List.foldl_cons, hcnt', hcnt, List.length_cons]
      omega
    · by_cases hx : authorizes st x
      · simp [List.foldl_cons, hau', hau, hx, List.filter_cons_of_pos hx]
      · simp [List.foldl_cons, hau', hau, hx, List.filter_cons_of_neg hx]
    · by_cases hx : authorizes st x
      · simp [List.foldl_cons, htot', htot, hx, List.filter_cons_of_pos hx]
      · simp [List.foldl_cons, htot', htot, hx, List.filter_cons_of_neg hx]

theorem batch_convert_some {st : State} {conversions : List ConversionRequest}
    {v : BatchConversionResult × State × List Event × List Nat}
    (h : batch_convert_currency st conversions = some v) :
    conversions.length ≠ 0 ∧ conversions.length ≤ MAX_BATCH_SIZE ∧
      v = runConversion st conversions := by
  unfold batch_convert_currency at h
  by_cases h2 : conversions.length = 0
  · rw [if_pos h2] at h
    exact absurd h (by simp)
  · rw [if_neg h2] at h
    by_cases h3 : conversions.length > MAX_BATCH_SIZE
    · rw [if_pos h3] at h
      exact absurd h (by simp)
    · rw [if_neg h3] at h
      exact ⟨h2, by omega, (Option.some.inj h).symm⟩

theorem filter_map_validate_user (st : State) (cs : List ConversionRequest) :
    ((cs.map validateRequest).filter (fun x => authorizes st x)).map (fun x => x.1.user) =
      (execRequests st cs).map (fun r => r.user) := by
  induction cs with
  | nil => rfl
  | cons r rest ih =>
    by_cases h : authorizes st (validateRequest r)
    · simp [execRequests, List.filter_cons, h, convValidateRequest_fst] at ih ⊢
      exact ih
    · simp [execRequests, List.filter_cons, h] at ih ⊢
      exact ih

theorem filter_map_validate_amount (st : State) (cs : List ConversionRequest) :
    ((cs.map validateRequest).filter (fun x => authorizes st x)).map
        (fun x => x.1.amount_in) =
      execAmounts st cs := by
  unfold execAmounts
  induction cs with
  | nil => rfl
  | cons r rest ih =>
    by_cases h : authorizes st (validateRequest r)
    · simp [execRequests, List.filter_cons, h, convValidateRequest_fst] at ih ⊢
      exact ih
    · simp [execRequests, List.filter_cons, h] at ih ⊢
      exact ih

theorem execAmounts_pos (st : State) (cs : List ConversionRequest) :
    ∀ a ∈ execAmounts st cs, 0 < a := by
  intro a ha
  obtain ⟨r, hr, hra⟩ := List.mem_map.1 ha
  subst hra
  have hcond := (List.mem_filter.1 hr).2
  have hv : (validateRequest r).2.1 = true := by
    simp only [authorizes, Bool.and_eq_true] at hcond
    exact hcond.1
  exact convValidateRequest_valid_pos r hv

theorem convFin_results (st : State) (cs : List ConversionRequest) :
    List.Forall₂ (fun r res => ConversionResult.userOf res = r.user ∧
      ConversionResult.amountInOf res = r.amount_in) cs (convFin st cs).results := by
  obtain ⟨out, hres, hf, hcnt, hau, htot⟩ := convLoop_spec st (u64add st.totalBatches 1)
    (cs.map validateRequest)
    { results := [], succCount := 0, failCount := 0, total := 0,
      events := [Event.batchStarted (u64add st.totalBatches 1) cs.length], auths := [] }
  have hout : (convFin st cs).results = out := by
    simpa [convFin] using hres
  rw [hout]
  rw [List.forall₂_map_left_iff] at hf
  exact hf.imp (fun a b hab => by rwa [convValidateRequest_fst] at hab)

theorem convFin_counts (st : State) (cs : List ConversionRequest) :
    (convFin st cs).succCount + (convFin st cs).failCount = cs.length := by
  obtain ⟨out, hres, hf, hcnt, hau, htot⟩ := convLoop_spec st (u64add st.totalBatches 1)
    (cs.map validateRequest)
    { results := [], succCount := 0, failCount := 0, total := 0,
      events := [Event.batchStarted (u64add st.totalBatches 1) cs.length], auths := [] }
  simpa [convFin, List.length_map] using hcnt

theorem convFin_auths (st : State) (cs : List ConversionRequest) :
    (convFin st cs).auths = (execRequests st cs).map (fun r => r.user) := by
  obtain ⟨out, hres, hf, hcnt, hau, htot⟩ := convLoop_spec st (u64add st.totalBatches 1)
    (cs.map validateRequest)
    { results := [], succCount := 0, failCount := 0, total := 0,
      events := [Event.batchStarted (u64add st.totalBatches 1) cs.length], auths := [] }
  have h1 : (convFin st cs).auths =
      ((cs.map validateRequest).filter (fun x => authorizes st x)).map
        (fun x => x.1.user) := by
    simpa [convFin] using hau
  rw [h1, filter_map_validate_user]

theorem convFin_total (st : State) (cs : List ConversionRequest) :
    (convFin st cs).total = (execAmounts st cs).foldl satAdd 0 := by
  obtain ⟨out, hres, hf, hcnt, hau, htot⟩ := convLoop_spec st (u64add st.totalBatches 1)
    (cs.map validateRequest)
    { results := [], succCount := 0, failCount := 0, total := 0,
      events := [Event.batchStarted (u64add st.totalBatches 1) cs.length], auths := [] }
  have h1 : (convFin st cs).total =
      (((cs.map validateRequest).filter (fun x => authorizes st x)).map
        (fun x => x.1.amount_in)).foldl satAdd 0 := by
    simpa [convFin] using htot
  rw [h1, filter_map_validate_amount]

end BatchConversion

namespace SavingsGoals

theorem is_valid_deadline_iff {cur d : Nat} :
    is_valid_deadline cur d = true ↔ cur < d ∧ d ≤ cur + 31536000 := by
  unfold is_valid_deadline
  split
  · rename_i h1
    simp
    omega
  · split
    · rename_i h1 h2
      simp
      omega
    · rename_i h1 h2
      simp
      omega

theorem is_valid_initial_contribution_iff {ic t : Int} :
    is_valid_initial_contribution ic t = true ↔ 0 ≤ ic ∧ ic ≤ t := by
  unfold is_valid_initial_contribution
  split
  · rename_i h1
    simp
    omega
  · split
    · rename_i h1 h2
      simp
      omega
    · rename_i h1 h2
      simp
      omega

theorem validate_none_iff {cur : Nat} {r : SavingsGoalRequest} :
    validate_goal_request cur r = none ↔
      is_valid_amount r.target_amount = true ∧ is_valid_deadline cur r.deadline = true ∧
      is_valid_initial_contribution r.initial_contribution r.target_amount = true := by
  unfold validate_goal_request
  by_cases h1 : is_valid_amount r.target_amount <;>
    by_cases h2 : is_valid_deadline cur r.deadline <;>
      by_cases h3 : is_valid_initial_contribution r.initial_contribution r.target_amount <;>
        simp [is_valid_address, h1, h2, h3]

theorem validate_ok_bounds {cur : Nat} {r : SavingsGoalRequest}
    (h : validate_goal_request cur r = none) :
    MIN_GOAL_AMOUNT ≤ r.target_amount ∧ r.target_amount ≤ MAX_GOAL_AMOUNT ∧
      cur < r.deadline ∧ 0 ≤ r.initial_contribution ∧
      r.initial_contribution ≤ r.target_amount := by
  obtain ⟨h1, h2, h3⟩ := validate_none_iff.1 h
  have ha := (by simpa [is_valid_amount] using h1 :
    MIN_GOAL_AMOUNT ≤ r.target_amount ∧ r.target_amount ≤ MAX_GOAL_AMOUNT)
  have hd := is_valid_deadline_iff.1 h2
  have hc := is_valid_initial_contribution_iff.1 h3
  exact ⟨ha.1, ha.2, hd.1, hc.1, hc.2⟩

theorem stepGoal_spec (batchId cur : Nat) (acc : Loop) (r : SavingsGoalRequest) :
    ∃ res, (stepGoal batchId cur acc r).results = acc.results ++ [res] ∧
      GoalEcho cur r res ∧
      (stepGoal batchId cur acc r).succCount + (stepGoal batchId cur acc r).failCount =
        acc.succCount + acc.failCount + 1 ∧
      (∀ gid g, (stepGoal batchId cur acc r).goals gid = some g →
        acc.goals gid = some g ∨ GoalInvariant g) := by
  cases hv : validate_goal_request cur r with
  | none =>
    obtain ⟨hmin, hmax, hdl, hic0, hict⟩ := validate_ok_bounds hv
    refine ⟨GoalResult.success
      { goal_id := u64add acc.goalCounter 1, user := r.user, goal_name := r.goal_name,
        target_amount := r.target_amount, current_amount := r.initial_contribution,
        deadline := r.deadline, created_at := cur, is_active := true }, ?_, ?_, ?_, ?_⟩
    · simp [stepGoal, hv]
    · constructor
      · intro _
        exact ⟨_, rfl, rfl, rfl, rfl, rfl, rfl, rfl, rfl⟩
      · intro c hc
        rw [hv] at hc
        exact absurd hc (by simp)
    · simp [stepGoal, hv]
      omega
    · intro gid g hg
      simp only [stepGoal, hv] at hg
      by_cases hgid : gid = u64add acc.goalCounter 1
      · rw [if_pos hgid] at hg
        refine Or.inr ?_
        have hgoal := Option.some.inj hg
        subst hgoal
        exact ⟨hic0, hict, hmin, hmax, hdl, rfl⟩
      · rw [if_neg hgid] at hg
        exact Or.inl hg
  | some c =>
    refine ⟨GoalResult.failure r.user c, ?_, ?_, ?_, ?_⟩
    · simp [stepGoal, hv]
    · constructor
      · intro hc
        rw [hv] at hc
        exact absurd hc (by simp)
      · intro c' hc'
        rw [hv] at hc'
        rw [Option.some.inj hc']
    · simp [stepGoal, hv]
      omega
    · intro gid g hg
      simp only [stepGoal, hv] at hg
      exact Or.inl hg

theorem goalLoop_spec (batchId cur : Nat) (l : List SavingsGoalRequest) :
    ∀ acc : Loop, ∃ out,
      (l.foldl (stepGoal batchId cur) acc).results = acc.results ++ out ∧
      List.Forall₂ (GoalEcho cur) l out ∧
      (l.foldl (stepGoal batchId cur) acc).succCount +
        (l.foldl (stepGoal batchId cur) acc).failCount =
        acc.succCount + acc.failCount + l.length ∧
      (∀ gid g, (l.foldl (stepGoal batchId cur) acc).goals gid = some g →
        acc.goals gid = some g ∨ GoalInvariant g) := by
  induction l with
  | nil => intro acc; exact ⟨[], by simp, List.Forall₂.nil, by simp, fun _ _ h => Or.inl h⟩
  | cons r rest ih =>
    intro acc
    obtain ⟨res, hres, hecho, hcnt, hgoals⟩ := stepGoal_spec batchId cur acc r
    obtain ⟨out, hres', hf, hcnt', hgoals'⟩ := ih (stepGoal batchId cur acc r)
    refine ⟨res :: out, ?_, List.Forall₂.cons hecho hf, ?_, ?_⟩
    · simp only [List.foldl_cons, hres', hres, List.append_assoc, List.singleton_append]
    · simp only [List.foldl_cons, hcnt', hcnt, List.length_cons]
      omega
    · intro gid g hg
      rcases hgoals' gid g (by simpa [List.foldl_cons] using hg) with h | h
      · exact hgoals gid g h
      · exact Or.inr h

theorem batch_goals_some {st : State} {caller : Nat} {requests : List SavingsGoalRequest}
    {v : BatchGoalResult × State × List Event × List Nat}
    (h : batch_set_savings_goals st caller requests = some v) :
    st.admin = some caller ∧ requests.length ≠ 0 ∧ requests.length ≤ MAX_BATCH_SIZE ∧
      v = runGoals st caller requests := by
  unfold batch_set_savings_goals at h
  by_cases h1 : st.admin = some caller
  · rw [if_pos h1] at h
    by_cases h2 : requests.length = 0
    · rw [if_pos h2] at h
      exact absurd h (by simp)
    · rw [if_neg h2] at h
      by_cases h3 : requests.length > MAX_BATCH_SIZE
      · rw [if_pos h3] at h
        exact absurd h (by simp)
      · rw [if_neg h3] at h
        exact ⟨h1, h2, by omega, (Option.some.inj h).symm⟩
  · rw [if_neg h1] at h
    exact absurd h (by simp)

theorem goalsFin_results (st : State) (requests : List SavingsGoalRequest) :
    List.Forall₂ (GoalEcho st.currentLedger) requests (goalsFin st requests).results := by
  obtain ⟨out, hres, hf, hcnt, hgoals⟩ := goalLoop_spec (u64add st.lastBatchId 1)
    st.currentLedger requests
    { results := [], succCount := 0, failCount := 0, totalTarget := 0, totalInit := 0,
      goalCounter := st.lastGoalId, goals := st.goals, userGoals := st.userGoals,
      events := [Event.batchStarted (u64add st.lastBatchId 1) requests.length] }
  have hout : (goalsFin st requests).results = out := by
    simpa [goalsFin] using hres
  rw [hout]
  exact hf

theorem goalsFin_counts (st : State) (requests : List SavingsGoalRequest) :
    (goalsFin st requests).succCount + (goalsFin st requests).failCount =
      requests.length := by
  obtain ⟨out, hres, hf, hcnt, hgoals⟩ := goalLoop_spec (u64add st.lastBatchId 1)
    st.currentLedger requests
    { results := [], succCount := 0, failCount := 0, totalTarget := 0, totalInit := 0,
      goalCounter := st.lastGoalId, goals := st.goals, userGoals := st.userGoals,
      events := [Event.batchStarted (u64add st.lastBatchId 1) requests.length] }
  simpa [goalsFin] using hcnt

theorem goalsFin_goals (st : State) (requests : List SavingsGoalRequest) :
    ∀ gid g, (goalsFin st requests).goals gid = some g →
      st.goals gid = some g ∨ GoalInvariant g := by
  obtain ⟨out, hres, hf, hcnt, hgoals⟩ := goalLoop_spec (u64add st.lastBatchId 1)
    st.currentLedger requests
    { results := [], succCount := 0, failCount := 0, totalTarget := 0, totalInit := 0,
      goalCounter := st.lastGoalId, goals := st.goals, userGoals := st.userGoals,
      events := [Event.batchStarted (u64add st.lastBatchId 1) requests.length] }
  intro gid g hg
  exact hgoals gid g (by simpa [goalsFin] using hg)

end SavingsGoals

namespace BatchPayment

theorem payLoop_none (src tok batchId : Nat) (l : List Payment) :
    ∀ trs evs total count, (∃ p ∈ l, p.amount ≤ 0) →
      payLoop src tok batchId l trs evs total count = none := by
  induction l with
  | nil =>
    intro _ _ _ _ h
    rcases h with ⟨p, hp, _⟩
    exact absurd hp (List.not_mem_nil p)
  | cons p rest ih =>
    intro trs evs total count h
    by_cases hp : p.amount ≤ 0
    · simp [payLoop, hp]
    · rcases h with ⟨q, hq, hqa⟩
      rcases List.mem_cons.1 hq with hq' | hq'
    -- q is p itself or in the tail
      · subst hq'
        exact absurd hqa hp
      · simp only [payLoop, hp, if_false]
        exact ih _ _ _ _ ⟨q, hq', hqa⟩

theorem payLoop_pos (src tok batchId : Nat) (l : List Payment) :
    ∀ trs evs total count, (∀ p ∈ l, 0 < p.amount) →
      payLoop src tok batchId l trs evs total count =
        some (trs ++ l.map (fun p => { src := src, dst := p.recipient, amount := p.amount }),
          evs ++ l.map (fun p => Event.payment batchId p.recipient tok p.amount),
          l.foldl (fun t p => wrapI128 (t + p.amount)) total,
          count + l.length) := by
  induction l with
  | nil =>
    intro trs evs total count _
    simp [payLoop]
  | cons p rest ih =>
    intro trs evs total count hall
    have hp : ¬p.amount ≤ 0 := by
      have := hall p (List.mem_cons_self _ _)
      omega
    simp only [payLoop, hp, if_false]
    rw [ih _ _ _ _ (fun q hq => hall q (List.mem_cons_of_mem _ hq))]
    simp only [List.map_cons, List.foldl_cons, List.length_cons, List.append_assoc,
      List.singleton_append, Option.some.injEq, Prod.mk.injEq, true_and, and_true]
    omega

end BatchPayment

namespace BatchNotify

theorem dispatchLoop_spec (l : List NotificationPayload) :
    ∀ succCount failures evs,
      (dispatchLoop l succCount failures evs).1.successful_count +
        (dispatchLoop l succCount failures evs).1.failed_addresses.length =
        succCount + failures.length + l.length ∧
      (dispatchLoop l succCount failures evs).1.failed_addresses =
        failures ++ (l.filter (fun p => p.message.isEmpty)).map (fun p => p.user) := by
  induction l with
  | nil =>
    intro s f e
    constructor
    · simp [dispatchLoop]
    · simp [dispatchLoop]
  | cons p rest ih =>
    intro s f e
    by_cases hp : p.message.isEmpty
    · have hstep : dispatchLoop (p :: rest) s f e =
          dispatchLoop rest s (f ++ [p.user]) e := by
        simp [dispatchLoop, hp]
      obtain ⟨ihc, ihf⟩ := ih s (f ++ [p.user]) e
      rw [hstep]
      constructor
      · rw [ihc]
        simp
        omega
      · rw [ihf]
        simp [List.filter_cons, hp]
    · have hstep : dispatchLoop (p :: rest) s f e =
          dispatchLoop rest (s + 1) f (e ++ [Event.notif p.user p.message]) := by
        simp [dispatchLoop, hp]
      obtain ⟨ihc, ihf⟩ := ih (s + 1) f (e ++ [Event.notif p.user p.message])
      rw [hstep]
      constructor
      · rw [ihc]
        simp
        omega
      · rw [ihf]
        simp [List.filter_cons, hp]

end BatchNotify


theorem u64add_small {a b : Nat} (ha : a ≤ 300) (hb : b ≤ 300) : u64add a b = a + b := by
  unfold u64add
  apply Nat.mod_eq_of_lt
  have h64 : (2 : Nat) ^ 64 = 18446744073709551616 := by norm_num
  rw [h64]
  omega

/-- Claim C1: every batch call that passes its preconditions returns a result with
len(ordered_results) = total_requests and successful_count + failed_count =
total_requests; each input item contributes exactly one result entry and exactly one
increment of one of the two counters (batch-transfer, batch-conversion, savings-goals). -/
theorem C1_batch_result_counts :
    (∀ st caller tok transfers res st1 evs aus,
      BatchTransfer.batch_transfer st caller tok transfers = some (res, st1, evs, aus) →
      res.total_requests = transfers.length ∧
      res.results.length = res.total_requests ∧
      res.successful + res.failed = res.total_requests) ∧
    (∀ st conversions res st1 evs aus,
      BatchConversion.batch_convert_currency st conversions = some (res, st1, evs, aus) →
      res.total_requests = conversions.length ∧
      res.results.length = res.total_requests ∧
      res.successful + res.failed = res.total_requests) ∧
    (∀ st caller requests res st1 evs aus,
      SavingsGoals.batch_set_savings_goals st caller requests = some (res, st1, evs, aus) →
      res.total_requests = requests.length ∧
      res.results.length = res.total_requests ∧
      res.successful + res.failed = res.total_requests) := by
  refine ⟨?_, ?_, ?_⟩
  · intro st caller tok transfers res st1 evs aus h
    obtain ⟨hadm, hne, hle, hv⟩ := BatchTransfer.batch_transfer_some h
    have h1 : res = (BatchTransfer.runTransfer st caller tok transfers).1 :=
      congrArg Prod.fst hv
    refine ⟨by rw [h1]; rfl, ?_, ?_⟩
    · rw [h1]
      show (BatchTransfer.transferFin st caller tok transfers).results.length =
        transfers.length
      exact (BatchTransfer.transferFin_results st caller tok transfers).length_eq.symm
    · rw [h1]
      show (BatchTransfer.transferFin st caller tok transfers).succCount +
        (BatchTransfer.transferFin st caller tok transfers).failCount = transfers.length
      exact BatchTransfer.transferFin_counts st caller tok transfers
  · intro st conversions res st1 evs aus h
    obtain ⟨hne, hle, hv⟩ := BatchConversion.batch_convert_some h
    have h1 : res = (BatchConversion.runConversion st conversions).1 :=
      congrArg Prod.fst hv
    refine ⟨by rw [h1]; rfl, ?_, ?_⟩
    · rw [h1]
      show (BatchConversion.convFin st conversions).results.length = conversions.length
      exact (BatchConversion.convFin_results st conversions).length_eq.symm
    · rw [h1]
      show (BatchConversion.convFin st conversions).succCount +
        (BatchConversion.convFin st conversions).failCount = conversions.length
      exact BatchConversion.convFin_counts st conversions
  · intro st caller requests res st1 evs aus h
    obtain ⟨hadm, hne, hle, hv⟩ := SavingsGoals.batch_goals_some h
    have h1 : res = (SavingsGoals.runGoals st caller requests).1 :=
      congrArg Prod.fst hv
    refine ⟨by rw [h1]; rfl, ?_, ?_⟩
    · rw [h1]
      show (SavingsGoals.goalsFin st requests).results.length = requests.length
      exact (SavingsGoals.goalsFin_results st requests).length_eq.symm
    · rw [h1]
      show (SavingsGoals.goalsFin st requests).succCount +
        (SavingsGoals.goalsFin st requests).failCount = requests.length
      exact SavingsGoals.goalsFin_counts st requests

/-- Witness for C1: concrete successful calls of all three contracts. -/
theorem C1_batch_result_counts_witness :
    (∃ res st1 evs aus,
      BatchTransfer.batch_transfer exTransferSt 1 5 [⟨2, 100⟩] = some (res, st1, evs, aus) ∧
      res.results.length = res.total_requests ∧
      res.successful + res.failed = res.total_requests) ∧
    (∃ res st1 evs aus,
      BatchConversion.batch_convert_currency exConvSt [⟨1, 10, 11, 100, 90⟩] =
        some (res, st1, evs, aus) ∧
      res.results.length = res.total_requests) ∧
    (∃ res st1 evs aus,
      SavingsGoals.batch_set_savings_goals exGoalsSt 1 [⟨7, 0, 20000000, 100, 5⟩] =
        some (res, st1, evs, aus) ∧
      res.results.length = res.total_requests) := by
  refine ⟨⟨_, _, _, _, rfl, ?_, ?_⟩, ⟨_, _, _, _, rfl, ?_⟩, ⟨_, _, _, _, rfl, ?_⟩⟩
  · exact (C1_batch_result_counts.1 exTransferSt 1 5 [⟨2, 100⟩] _ _ _ _ rfl).2.1
  · exact (C1_batch_result_counts.1 exTransferSt 1 5 [⟨2, 100⟩] _ _ _ _ rfl).2.2
  · exact (C1_batch_result_counts.2.1 exConvSt [⟨1, 10, 11, 100, 90⟩] _ _ _ _ rfl).2.1
  · exact (C1_batch_result_counts.2.2 exGoalsSt 1 [⟨7, 0, 20000000, 100, 5⟩] _ _ _ _ rfl).2.1

/-- Counterexample to C2 as stated: not every batch entry point aborts on an empty
batch.  The budget-allocation contract returns a completed (empty) batch result for an
empty request list, and the batch-payment contract completes and even publishes its
batch-completion event for an empty payment list. -/
theorem C2_counterexample :
    BudgetAllocation.batch_allocate_budget exAllocSt 1 [] =
      some ({ successful := 0, failed := 0, total_amount := 0 }, exAllocSt, [], [1]) ∧
    BatchPayment.batch_transfer 1 5 42 [] =
      some ([], [BatchPayment.Event.batchComplete 42 0 0], [1]) := by
  constructor
  · rfl
  · rfl

/-- Claim C2 (amended): the batch entry points that implement the size preconditions —
batch-transfer, batch-conversion and savings-goals — abort the whole call (no result,
no state change, no event) on an empty or >100-item batch; the budget-allocation and
batch-payment entry points have no such precondition and process an empty list as a
normal call. -/
theorem C2_size_preconditions :
    (∀ st caller tok transfers, transfers = [] ∨
        transfers.length > BatchTransfer.MAX_BATCH_SIZE →
      BatchTransfer.batch_transfer st caller tok transfers = none) ∧
    (∀ st conversions, conversions = [] ∨
        conversions.length > BatchConversion.MAX_BATCH_SIZE →
      BatchConversion.batch_convert_currency st conversions = none) ∧
    (∀ st caller requests, requests = [] ∨
        requests.length > SavingsGoals.MAX_BATCH_SIZE →
      SavingsGoals.batch_set_savings_goals st caller requests = none) ∧
    (∀ st admin, st.admin = some admin →
      BudgetAllocation.batch_allocate_budget st admin [] =
        some ({ successful := 0, failed := 0, total_amount := 0 }, st, [], [admin])) ∧
    (∀ src tok seq, BatchPayment.batch_transfer src tok seq [] =
      some ([], [BatchPayment.Event.batchComplete seq 0 0], [src])) := by
  refine ⟨?_, ?_, ?_, ?_, ?_⟩
  · intro st caller tok transfers h
    unfold BatchTransfer.batch_transfer
    by_cases h1 : st.admin = some caller
    · rw [if_pos h1]
      rcases h with h | h
      · subst h
        rfl
      · have h0 : transfers.length ≠ 0 := by omega
        rw [if_neg h0, if_pos h]
    · rw [if_neg h1]
  · intro st conversions h
    unfold BatchConversion.batch_convert_currency
    rcases h with h | h
    · subst h
      rfl
    · have h0 : conversions.length ≠ 0 := by omega
      rw [if_neg h0, if_pos h]
  · intro st caller requests h
    unfold SavingsGoals.batch_set_savings_goals
    by_cases h1 : st.admin = some caller
    · rw [if_pos h1]
      rcases h with h | h
      · subst h
        rfl
      · have h0 : requests.length ≠ 0 := by omega
        rw [if_neg h0, if_pos h]
    · rw [if_neg h1]
  · intro st admin hadm
    unfold BudgetAllocation.batch_allocate_budget
    rw [if_pos hadm]
    rfl
  · intro src tok seq
    rfl

/-- Witness for C2 (amended) at concrete inputs: the three size-checked contracts
reject an empty batch and a 101-item batch, and budget-allocation accepts an empty
one. -/
theorem C2_size_preconditions_witness :
    BatchTransfer.batch_transfer exTransferSt 1 5 [] = none ∧
    BatchTransfer.batch_transfer exTransferSt 1 5 (List.replicate 101 ⟨2, 100⟩) = none ∧
    BatchConversion.batch_convert_currency exConvSt [] = none ∧
    SavingsGoals.batch_set_savings_goals exGoalsSt 1 [] = none ∧
    BudgetAllocation.batch_allocate_budget exAllocSt 1 [] =
      some ({ successful := 0, failed := 0, total_amount := 0 }, exAllocSt, [], [1]) := by
  refine ⟨?_, ?_, ?_, ?_, ?_⟩
  · exact C2_size_preconditions.1 exTransferSt 1 5 [] (Or.inl rfl)
  · exact C2_size_preconditions.1 exTransferSt 1 5 (List.replicate 101 ⟨2, 100⟩)
      (Or.inr (by simp [BatchTransfer.MAX_BATCH_SIZE]))
  · exact C2_size_preconditions.2.1 exConvSt [] (Or.inl rfl)
  · exact C2_size_preconditions.2.2.1 exGoalsSt 1 [] (Or.inl rfl)
  · exact C2_size_preconditions.2.2.2.1 exAllocSt 1 rfl

/-- Claim C3: a batch call that passes preconditions advances the persisted batch
counter by exactly 1 — even when every item fails — and the total-items-processed
counter by the item count; two successive calls on a fresh contract yield batch ids 1
then 2, and processed totals summing both calls' item counts. -/
theorem C3_batch_counters :
    (∀ st caller tok transfers res st1 evs aus,
      BatchTransfer.batch_transfer st caller tok transfers = some (res, st1, evs, aus) →
      st.totalBatches + 1 < 2 ^ 64 → st.totalProcessed + transfers.length < 2 ^ 64 →
      st1.totalBatches = st.totalBatches + 1 ∧
      st1.totalProcessed = st.totalProcessed + transfers.length) ∧
    (∀ st caller requests res st1 evs aus,
      SavingsGoals.batch_set_savings_goals st caller requests = some (res, st1, evs, aus) →
      st.lastBatchId + 1 < 2 ^ 64 → st.totalBatchesProcessed + 1 < 2 ^ 64 →
      st1.lastBatchId = st.lastBatchId + 1 ∧ res.batch_id = st.lastBatchId + 1 ∧
      st1.totalBatchesProcessed = st.totalBatchesProcessed + 1) ∧
    (∀ admin ledger reqs1 reqs2 r1 s1 e1 a1 r2 s2 e2 a2,
      SavingsGoals.batch_set_savings_goals (SavingsGoals.initState admin ledger)
        admin reqs1 = some (r1, s1, e1, a1) →
      SavingsGoals.batch_set_savings_goals s1 admin reqs2 = some (r2, s2, e2, a2) →
      r1.batch_id = 1 ∧ r2.batch_id = 2) ∧
    (∀ admin tok bal t1 t2 r1 s1 e1 a1 r2 s2 e2 a2,
      BatchTransfer.batch_transfer (BatchTransfer.initState admin bal) admin tok t1 =
        some (r1, s1, e1, a1) →
      BatchTransfer.batch_transfer s1 admin tok t2 = some (r2, s2, e2, a2) →
      s1.totalBatches = 1 ∧ s2.totalBatches = 2 ∧
      s2.totalProcessed = t1.length + t2.length) := by
  have hb1 : ∀ (st : BatchTransfer.State) caller tok transfers res st1 evs aus,
      BatchTransfer.batch_transfer st caller tok transfers = some (res, st1, evs, aus) →
      st1.totalBatches = u64add st.totalBatches 1 ∧
      st1.totalProcessed = u64add st.totalProcessed transfers.length ∧
      transfers.length ≤ 100 := by
    intro st caller tok transfers res st1 evs aus h
    obtain ⟨hadm, hne, hle, hv⟩ := BatchTransfer.batch_transfer_some h
    have h2 : st1 = (BatchTransfer.runTransfer st caller tok transfers).2.1 :=
      congrArg (fun p => p.2.1) hv
    refine ⟨by rw [h2]; rfl, by rw [h2]; rfl, ?_⟩
    simpa [BatchTransfer.MAX_BATCH_SIZE] using hle
  have hg1 : ∀ (st : SavingsGoals.State) caller requests res st1 evs aus,
      SavingsGoals.batch_set_savings_goals st caller requests = some (res, st1, evs, aus) →
      st1.lastBatchId = u64add st.lastBatchId 1 ∧
      res.batch_id = u64add st.lastBatchId 1 ∧
      st1.totalBatchesProcessed = u64add st.totalBatchesProcessed 1 := by
    intro st caller requests res st1 evs aus h
    obtain ⟨hadm, hne, hle, hv⟩ := SavingsGoals.batch_goals_some h
    have h1 : res = (SavingsGoals.runGoals st caller requests).1 :=
      congrArg Prod.fst hv
    have h2 : st1 = (SavingsGoals.runGoals st caller requests).2.1 :=
      congrArg (fun p => p.2.1) hv
    exact ⟨by rw [h2]; rfl, by rw [h1]; rfl, by rw [h2]; rfl⟩
  refine ⟨?_, ?_, ?_, ?_⟩
  · intro st caller tok transfers res st1 evs aus h hm1 hm2
    obtain ⟨hb, hp, _⟩ := hb1 st caller tok transfers res st1 evs aus h
    constructor
    · rw [hb]
      exact Nat.mod_eq_of_lt hm1
    · rw [hp]
      exact Nat.mod_eq_of_lt hm2
  · intro st caller requests res st1 evs aus h hm1 hm2
    obtain ⟨hb, hr, hp⟩ := hg1 st caller requests res st1 evs aus h
    refine ⟨?_, ?_, ?_⟩
    · rw [hb]
      exact Nat.mod_eq_of_lt hm1
    · rw [hr]
      exact Nat.mod_eq_of_lt hm1
    · rw [hp]
      exact Nat.mod_eq_of_lt hm2
  · intro admin ledger reqs1 reqs2 r1 s1 e1 a1 r2 s2 e2 a2 hc1 hc2
    obtain ⟨hb1g, hr1, _⟩ := hg1 _ admin reqs1 r1 s1 e1 a1 hc1
    obtain ⟨_, hr2, _⟩ := hg1 s1 admin reqs2 r2 s2 e2 a2 hc2
    have hs1 : s1.lastBatchId = 1 := by
      rw [hb1g]
      rfl
    constructor
    · rw [hr1]
      rfl
    · rw [hr2, hs1]
      rfl
  · intro admin tok bal t1 t2 r1 s1 e1 a1 r2 s2 e2 a2 hc1 hc2
    obtain ⟨hb1t, hp1, hl1⟩ := hb1 _ admin tok t1 r1 s1 e1 a1 hc1
    obtain ⟨hb2t, hp2, hl2⟩ := hb1 s1 admin tok t2 r2 s2 e2 a2 hc2
    have hs1b : s1.totalBatches = 1 := by
      rw [hb1t]
      rfl
    have hs1p : s1.totalProcessed = t1.length := by
      rw [hp1]
      show (0 + t1.length) % 2 ^ 64 = t1.length
      rw [Nat.zero_add]
      apply Nat.mod_eq_of_lt
      have h64 : (2 : Nat) ^ 64 = 18446744073709551616 := by norm_num
      omega
    refine ⟨hs1b, ?_, ?_⟩
    · rw [hb2t, hs1b]
      rfl
    · rw [hp2, hs1p, u64add_small (by omega) (by omega)]

/-- Witness for C3: concrete single calls and two successive calls on fresh contracts,
the second transfer batch containing a failing item. -/
theorem C3_batch_counters_witness :
    (∃ res st1 evs aus,
      BatchTransfer.batch_transfer exTransferSt 1 5 [⟨2, 100⟩] = some (res, st1, evs, aus) ∧
      st1.totalBatches = exTransferSt.totalBatches + 1) ∧
    (∃ res st1 evs aus,
      SavingsGoals.batch_set_savings_goals exGoalsSt 1 [⟨7, 0, 20000000, 100, 5⟩] =
        some (res, st1, evs, aus) ∧
      st1.lastBatchId = exGoalsSt.lastBatchId + 1) ∧
    (∃ r1 s1 e1 a1 r2 s2 e2 a2,
      SavingsGoals.batch_set_savings_goals (SavingsGoals.initState 1 50) 1
        [⟨7, 0, 20000000, 100, 5⟩] = some (r1, s1, e1, a1) ∧
      SavingsGoals.batch_set_savings_goals s1 1 [⟨8, 0, 20000000, 100, 0⟩] =
        some (r2, s2, e2, a2) ∧
      r1.batch_id = 1 ∧ r2.batch_id = 2) ∧
    (∃ r1 s1 e1 a1 r2 s2 e2 a2,
      BatchTransfer.batch_transfer (BatchTransfer.initState 1 exBal) 1 5 [⟨2, 100⟩] =
        some (r1, s1, e1, a1) ∧
      BatchTransfer.batch_transfer s1 1 5 [⟨3, 50⟩, ⟨4, -1⟩] = some (r2, s2, e2, a2) ∧
      s1.totalBatches = 1 ∧ s2.totalBatches = 2 ∧ s2.totalProcessed = 3) := by
  refine ⟨⟨_, _, _, _, rfl, ?_⟩, ⟨_, _, _, _, rfl, ?_⟩,
    ⟨_, _, _, _, _, _, _, _, rfl, rfl, ?_, ?_⟩,
    ⟨_, _, _, _, _, _, _, _, rfl, rfl, ?_, ?_, ?_⟩⟩
  · exact (C3_batch_counters.1 exTransferSt 1 5 [⟨2, 100⟩] _ _ _ _ rfl
      (by decide) (by decide)).1
  · exact (C3_batch_counters.2.1 exGoalsSt 1 [⟨7, 0, 20000000, 100, 5⟩] _ _ _ _ rfl
      (by decide) (by decide)).1
  · exact (C3_batch_counters.2.2.1 1 50 [⟨7, 0, 20000000, 100, 5⟩]
      [⟨8, 0, 20000000, 100, 0⟩] _ _ _ _ _ _ _ _ rfl rfl).1
  · exact (C3_batch_counters.2.2.1 1 50 [⟨7, 0, 20000000, 100, 5⟩]
      [⟨8, 0, 20000000, 100, 0⟩] _ _ _ _ _ _ _ _ rfl rfl).2
  · exact (C3_batch_counters.2.2.2 1 5 exBal [⟨2, 100⟩] [⟨3, 50⟩, ⟨4, -1⟩]
      _ _ _ _ _ _ _ _ rfl rfl).1
  · exact (C3_batch_counters.2.2.2 1 5 exBal [⟨2, 100⟩] [⟨3, 50⟩, ⟨4, -1⟩]
      _ _ _ _ _ _ _ _ rfl rfl).2.1
  · exact (C3_batch_counters.2.2.2 1 5 exBal [⟨2, 100⟩] [⟨3, 50⟩, ⟨4, -1⟩]
      _ _ _ _ _ _ _ _ rfl rfl).2.2

theorem GoalEcho_userOf {cur : Nat} {r : SavingsGoals.SavingsGoalRequest}
    {res : SavingsGoals.GoalResult} (h : SavingsGoals.GoalEcho cur r res) :
    res.userOf = r.user := by
  cases hv : SavingsGoals.validate_goal_request cur r with
  | none =>
    obtain ⟨g, hres, hcf⟩ := h.1 hv
    rw [hres]
    exact hcf.1
  | some c =>
    rw [h.2 c hv]
    rfl

theorem GoalEcho_success {cur : Nat} {r : SavingsGoals.SavingsGoalRequest}
    {res : SavingsGoals.GoalResult} (h : SavingsGoals.GoalEcho cur r res)
    (g : SavingsGoals.SavingsGoal) (hs : res = SavingsGoals.GoalResult.success g) :
    SavingsGoals.CreatedFrom cur r g := by
  cases hv : SavingsGoals.validate_goal_request cur r with
  | none =>
    obtain ⟨g', hres, hcf⟩ := h.1 hv
    have hgg : g = g' := by
      have := hs.symm.trans hres
      exact SavingsGoals.GoalResult.success.inj this
    rw [hgg]
    exact hcf
  | some c =>
    rw [h.2 c hv] at hs
    exact absurd hs (by simp)

/-- Claim C4: for every batch call that passes preconditions, ordered_results[i] is a
Success or Failure variant echoing the account (and amount or payload, where carried)
of input item i, in strict input order (batch-transfer, savings-goals,
batch-conversion). -/
theorem C4_order_preservation :
    (∀ st caller tok transfers res st1 evs aus,
      BatchTransfer.batch_transfer st caller tok transfers = some (res, st1, evs, aus) →
      ∀ i (h1 : i < transfers.length) (h2 : i < res.results.length),
        (res.results.get ⟨i, h2⟩).recipientOf = (transfers.get ⟨i, h1⟩).recipient ∧
        (res.results.get ⟨i, h2⟩).amountOf = (transfers.get ⟨i, h1⟩).amount) ∧
    (∀ st conversions res st1 evs aus,
      BatchConversion.batch_convert_currency st conversions = some (res, st1, evs, aus) →
      ∀ i (h1 : i < conversions.length) (h2 : i < res.results.length),
        (res.results.get ⟨i, h2⟩).userOf = (conversions.get ⟨i, h1⟩).user ∧
        (res.results.get ⟨i, h2⟩).amountInOf = (conversions.get ⟨i, h1⟩).amount_in) ∧
    (∀ st caller requests res st1 evs aus,
      SavingsGoals.batch_set_savings_goals st caller requests = some (res, st1, evs, aus) →
      ∀ i (h1 : i < requests.length) (h2 : i < res.results.length),
        (res.results.get ⟨i, h2⟩).userOf = (requests.get ⟨i, h1⟩).user ∧
        (∀ g, res.results.get ⟨i, h2⟩ = SavingsGoals.GoalResult.success g →
          g.target_amount = (requests.get ⟨i, h1⟩).target_amount ∧
          g.current_amount = (requests.get ⟨i, h1⟩).initial_contribution)) := by
  refine ⟨?_, ?_, ?_⟩
  · intro st caller tok transfers res st1 evs aus h i h1 h2
    obtain ⟨hadm, hne, hle, hv⟩ := BatchTransfer.batch_transfer_some h
    have hr : res = (BatchTransfer.runTransfer st caller tok transfers).1 :=
      congrArg Prod.fst hv
    subst hr
    exact (BatchTransfer.transferFin_results st caller tok transfers).get h1 h2
  · intro st conversions res st1 evs aus h i h1 h2
    obtain ⟨hne, hle, hv⟩ := BatchConversion.batch_convert_some h
    have hr : res = (BatchConversion.runConversion st conversions).1 :=
      congrArg Prod.fst hv
    subst hr
    exact (BatchConversion.convFin_results st conversions).get h1 h2
  · intro st caller requests res st1 evs aus h i h1 h2
    obtain ⟨hadm, hne, hle, hv⟩ := SavingsGoals.batch_goals_some h
    have hr : res = (SavingsGoals.runGoals st caller requests).1 :=
      congrArg Prod.fst hv
    subst hr
    have hecho := (SavingsGoals.goalsFin_results st requests).get h1 h2
    constructor
    · exact GoalEcho_userOf hecho
    · intro g hg
      have hcf := GoalEcho_success hecho g hg
      exact ⟨hcf.2.2.1, hcf.2.2.2.1⟩

/-- Witness for C4: in a concrete two-item batch whose second item fails validation,
result 1 still echoes recipient and amount of item 1. -/
theorem C4_order_preservation_witness :
    ∃ res st1 evs aus,
      BatchTransfer.batch_transfer exTransferSt 1 5 [⟨2, 100⟩, ⟨3, -7⟩] =
        some (res, st1, evs, aus) ∧
      ∃ (h2 : 1 < res.results.length),
        (res.results.get ⟨1, h2⟩).recipientOf = 3 ∧
        (res.results.get ⟨1, h2⟩).amountOf = -7 := by
  refine ⟨_, _, _, _, rfl, by decide, ?_, ?_⟩
  · exact (C4_order_preservation.1 exTransferSt 1 5 [⟨2, 100⟩, ⟨3, -7⟩] _ _ _ _ rfl
      1 (by decide) (by decide)).1
  · exact (C4_order_preservation.1 exTransferSt 1 5 [⟨2, 100⟩, ⟨3, -7⟩] _ _ _ _ rfl
      1 (by decide) (by decide)).2

/-- Counterexample to C5 as stated: the batch-conversion entry point does not invoke
require_auth exactly once per call.  A batch of two valid, funded conversions triggers
two require_auth calls (one per executed item, inside execute_conversion), and none on
any top-level caller. -/
theorem C5_counterexample :
    ∃ res st1 evs aus,
      BatchConversion.batch_convert_currency exConvSt
        [⟨1, 10, 11, 100, 90⟩, ⟨2, 10, 11, 50, 40⟩] = some (res, st1, evs, aus) ∧
      aus = [1, 2] ∧ aus.length ≠ 1 := by
  refine ⟨_, _, _, _, rfl, rfl, by decide⟩

/-- Claim C5 (amended): the admin-gated batch entry points (batch-transfer,
savings-goals) invoke require_auth exactly once per call, on the caller, independent of
the item count and of how many items are valid; the batch-conversion entry point
instead calls require_auth once per item that passes validation and the balance check,
inside execute_conversion, so its auth count equals the number of executed items. -/
theorem C5_auth_per_call :
    (∀ st caller tok transfers res st1 evs aus,
      BatchTransfer.batch_transfer st caller tok transfers = some (res, st1, evs, aus) →
      aus = [caller]) ∧
    (∀ st caller requests res st1 evs aus,
      SavingsGoals.batch_set_savings_goals st caller requests = some (res, st1, evs, aus) →
      aus = [caller]) ∧
    (∀ st conversions res st1 evs aus,
      BatchConversion.batch_convert_currency st conversions = some (res, st1, evs, aus) →
      aus = (BatchConversion.execRequests st conversions).map (fun r => r.user) ∧
      aus.length = (BatchConversion.execRequests st conversions).length) := by
  refine ⟨?_, ?_, ?_⟩
  · intro st caller tok transfers res st1 evs aus h
    obtain ⟨hadm, hne, hle, hv⟩ := BatchTransfer.batch_transfer_some h
    have ha : aus = (BatchTransfer.runTransfer st caller tok transfers).2.2.2 :=
      congrArg (fun p => p.2.2.2) hv
    rw [ha]
    rfl
  · intro st caller requests res st1 evs aus h
    obtain ⟨hadm, hne, hle, hv⟩ := SavingsGoals.batch_goals_some h
    have ha : aus = (SavingsGoals.runGoals st caller requests).2.2.2 :=
      congrArg (fun p => p.2.2.2) hv
    rw [ha]
    rfl
  · intro st conversions res st1 evs aus h
    obtain ⟨hne, hle, hv⟩ := BatchConversion.batch_convert_some h
    have ha : aus = (BatchConversion.runConversion st conversions).2.2.2 :=
      congrArg (fun p => p.2.2.2) hv
    have ha2 : aus =
        (BatchConversion.execRequests st conversions).map (fun r => r.user) := by
      rw [ha]
      exact BatchConversion.convFin_auths st conversions
    exact ⟨ha2, by rw [ha2, List.length_map]⟩

/-- Witness for C5 (amended): concrete calls of the three contracts. -/
theorem C5_auth_per_call_witness :
    (∃ res st1 evs aus,
      BatchTransfer.batch_transfer exTransferSt 1 5 [⟨2, 100⟩] = some (res, st1, evs, aus) ∧
      aus = [1]) ∧
    (∃ res st1 evs aus,
      SavingsGoals.batch_set_savings_goals exGoalsSt 1 [⟨7, 0, 20000000, 100, 5⟩] =
        some (res, st1, evs, aus) ∧
      aus = [1]) ∧
    (∃ res st1 evs aus,
      BatchConversion.batch_convert_currency exConvSt [⟨9, 10, 11, 100, 90⟩] =
        some (res, st1, evs, aus) ∧
      aus.length = (BatchConversion.execRequests exConvSt [⟨9, 10, 11, 100, 90⟩]).length) := by
  refine ⟨⟨_, _, _, _, rfl, ?_⟩, ⟨_, _, _, _, rfl, ?_⟩, ⟨_, _, _, _, rfl, ?_⟩⟩
  · exact C5_auth_per_call.1 exTransferSt 1 5 [⟨2, 100⟩] _ _ _ _ rfl
  · exact C5_auth_per_call.2.1 exGoalsSt 1 [⟨7, 0, 20000000, 100, 5⟩] _ _ _ _ rfl
  · exact (C5_auth_per_call.2.2 exConvSt [⟨9, 10, 11, 100, 90⟩] _ _ _ _ rfl).2

set_option maxRecDepth 10000 in
/-- Counterexample to C6 as stated: the per-batch aggregate does not saturate at
i128::MAX.  Two valid funded conversions of i128::MAX - 1 each overflow the running
total on the second addition, and the code keeps the previous total (i128::MAX - 1),
dropping the addend, instead of becoming i128::MAX. -/
theorem C6_counterexample :
    ∃ res st1 evs aus,
      BatchConversion.batch_convert_currency maxConvSt
        [⟨1, 10, 11, I128_MAX - 1, 1⟩, ⟨2, 10, 11, I128_MAX - 1, 1⟩] =
        some (res, st1, evs, aus) ∧
      res.successful = 2 ∧
      I128_MAX < (I128_MAX - 1) + (I128_MAX - 1) ∧
      res.total_converted = I128_MAX - 1 ∧
      res.total_converted ≠ I128_MAX := by
  refine ⟨_, _, _, _, rfl, rfl, by decide, rfl, by decide⟩

theorem checkedAdd_getD_MAX {a b : Int} (ha : 0 ≤ a) (hb : 0 ≤ b) :
    (checkedAddI128 a b).getD I128_MAX =
      if a + b ≤ I128_MAX then a + b else I128_MAX := by
  unfold checkedAddI128
  by_cases hc : a + b ≤ I128_MAX
  · rw [if_pos ⟨by unfold I128_MIN; omega, hc⟩, Option.getD_some, if_pos hc]
  · rw [if_neg (fun hh => hc hh.2), Option.getD_none, if_neg hc]

/-- Claim C6 (amended): the per-batch aggregate is accumulated with
checked_add(..).unwrap_or(previous_total): on overflow it keeps the previous total and
drops that item's amount — it does not saturate to i128::MAX — while it equals the
exact integer sum whenever no intermediate overflow occurs; the persisted total-volume
counter is accumulated with checked_add(..).unwrap_or(i128::MAX) and so saturates at
the numeric maximum. -/
theorem C6_saturating_aggregation :
    (∀ st conversions res st1 evs aus,
      BatchConversion.batch_convert_currency st conversions = some (res, st1, evs, aus) →
      res.total_converted = (BatchConversion.execAmounts st conversions).foldl satAdd 0 ∧
      0 ≤ res.total_converted ∧
      ((BatchConversion.execAmounts st conversions).sum ≤ I128_MAX →
        res.total_converted = (BatchConversion.execAmounts st conversions).sum) ∧
      (0 ≤ st.totalVolume →
        st1.totalVolume =
          if res.total_converted + st.totalVolume ≤ I128_MAX
          then res.total_converted + st.totalVolume else I128_MAX)) ∧
    (∀ st caller tok transfers res st1 evs aus,
      BatchTransfer.batch_transfer st caller tok transfers = some (res, st1, evs, aus) →
      0 ≤ res.total_transferred ∧
      (0 ≤ st.totalVolume →
        st1.totalVolume =
          if res.total_transferred + st.totalVolume ≤ I128_MAX
          then res.total_transferred + st.totalVolume else I128_MAX)) := by
  constructor
  · intro st conversions res st1 evs aus h
    obtain ⟨hne, hle, hv⟩ := BatchConversion.batch_convert_some h
    have hr : res = (BatchConversion.runConversion st conversions).1 :=
      congrArg Prod.fst hv
    have hs : st1 = (BatchConversion.runConversion st conversions).2.1 :=
      congrArg (fun p => p.2.1) hv
    have hpos : ∀ a ∈ BatchConversion.execAmounts st conversions, 0 ≤ a :=
      fun a ha => le_of_lt (BatchConversion.execAmounts_pos st conversions a ha)
    have htot : res.total_converted =
        (BatchConversion.execAmounts st conversions).foldl satAdd 0 := by
      rw [hr]
      exact BatchConversion.convFin_total st conversions
    have hnn : 0 ≤ res.total_converted := by
      rw [htot]
      exact foldl_satAdd_nonneg _ 0 hpos (le_refl 0)
    refine ⟨htot, hnn, ?_, ?_⟩
    · intro hsum
      rw [htot, foldl_satAdd_eq_sum _ 0 hpos (le_refl 0) (by simpa using hsum)]
      simp
    · intro hvol
      have hst : st1.totalVolume =
          (checkedAddI128 ((BatchConversion.convFin st conversions).total)
            st.totalVolume).getD I128_MAX := by
        rw [hs]
        rfl
      have hfin : (BatchConversion.convFin st conversions).total = res.total_converted := by
        rw [hr]
        rfl
      rw [hst, hfin, checkedAdd_getD_MAX hnn hvol]
  · intro st caller tok transfers res st1 evs aus h
    obtain ⟨hadm, hne, hle, hv⟩ := BatchTransfer.batch_transfer_some h
    have hr : res = (BatchTransfer.runTransfer st caller tok transfers).1 :=
      congrArg Prod.fst hv
    have hs : st1 = (BatchTransfer.runTransfer st caller tok transfers).2.1 :=
      congrArg (fun p => p.2.1) hv
    have hnn : 0 ≤ res.total_transferred := by
      rw [hr]
      exact BatchTransfer.transferFin_total_nonneg st caller tok transfers
    refine ⟨hnn, ?_⟩
    intro hvol
    have hst : st1.totalVolume =
        (checkedAddI128 ((BatchTransfer.transferFin st caller tok transfers).total)
          st.totalVolume).getD I128_MAX := by
      rw [hs]
      rfl
    have hfin : (BatchTransfer.transferFin st caller tok transfers).total =
        res.total_transferred := by
      rw [hr]
      rfl
    rw [hst, hfin, checkedAdd_getD_MAX hnn hvol]

set_option maxRecDepth 10000 in
/-- Witness for C6 (amended): a concrete conversion batch with no overflow hits the
exact-sum case and the exact volume update; a concrete transfer shows the nonnegative
aggregate. -/
theorem C6_saturating_aggregation_witness :
    (∃ res st1 evs aus,
      BatchConversion.batch_convert_currency exConvSt [⟨1, 10, 11, 100, 90⟩] =
        some (res, st1, evs, aus) ∧
      res.total_converted =
        (BatchConversion.execAmounts exConvSt [⟨1, 10, 11, 100, 90⟩]).sum ∧
      st1.totalVolume =
        if res.total_converted + exConvSt.totalVolume ≤ I128_MAX
        then res.total_converted + exConvSt.totalVolume else I128_MAX) ∧
    (∃ res st1 evs aus,
      BatchTransfer.batch_transfer exTransferSt 1 5 [⟨2, 100⟩] = some (res, st1, evs, aus) ∧
      0 ≤ res.total_transferred) := by
  refine ⟨⟨_, _, _, _, rfl, ?_, ?_⟩, ⟨_, _, _, _, rfl, ?_⟩⟩
  · exact (C6_saturating_aggregation.1 exConvSt [⟨1, 10, 11, 100, 90⟩] _ _ _ _
      rfl).2.2.1 (by decide)
  · exact (C6_saturating_aggregation.1 exConvSt [⟨1, 10, 11, 100, 90⟩] _ _ _ _
      rfl).2.2.2 (by decide)
  · exact (C6_saturating_aggregation.2 exTransferSt 1 5 [⟨2, 100⟩] _ _ _ _ rfl).1

/-- Claim C7: for recommendation profiles identical in income, expenses and savings but
differing in risk tier, the emergency fund target is monotonically non-increasing in
aggressiveness: a conservative-band profile (tier 1-2) gets a target ≥ a moderate
profile's (tier 3), which is ≥ an aggressive-band profile's (tier 4-5).  The Decision
Engine is modelled from the spec, its source being absent from the tree. -/
theorem C7_emergency_fund_monotone :
    ∀ p q r : Recommend.UserProfile,
      p.monthly_expenses = q.monthly_expenses →
      q.monthly_expenses = r.monthly_expenses →
      0 ≤ p.monthly_expenses →
      (p.risk_tolerance = 1 ∨ p.risk_tolerance = 2) → q.risk_tolerance = 3 →
      (r.risk_tolerance = 4 ∨ r.risk_tolerance = 5) →
      Recommend.emergency_fund_target r ≤ Recommend.emergency_fund_target q ∧
      Recommend.emergency_fund_target q ≤ Recommend.emergency_fund_target p := by
  intro p q r hpq hqr hnn hp hq hr
  have h1 : Recommend.emergencyMonths q.risk_tolerance = 4 := by
    rw [hq]
    rfl
  have h2 : Recommend.emergencyMonths p.risk_tolerance = 6 := by
    rcases hp with hp | hp <;> rw [hp] <;> rfl
  have h3 : Recommend.emergencyMonths r.risk_tolerance = 3 := by
    rcases hr with hr | hr <;> rw [hr] <;> rfl
  unfold Recommend.emergency_fund_target
  rw [h1, h2, h3, ← hqr, ← hpq]
  constructor
  · nlinarith
  · nlinarith

/-- Witness for C7: identical finances at tiers 1, 3 and 5. -/
theorem C7_emergency_fund_monotone_witness :
    Recommend.emergency_fund_target ⟨3, 9000, 5000, 2000, 5⟩ ≤
      Recommend.emergency_fund_target ⟨2, 9000, 5000, 2000, 3⟩ ∧
    Recommend.emergency_fund_target ⟨2, 9000, 5000, 2000, 3⟩ ≤
      Recommend.emergency_fund_target ⟨1, 9000, 5000, 2000, 1⟩ :=
  C7_emergency_fund_monotone ⟨1, 9000, 5000, 2000, 1⟩ ⟨2, 9000, 5000, 2000, 3⟩
    ⟨3, 9000, 5000, 2000, 5⟩ rfl rfl (by decide) (Or.inl rfl) rfl (Or.inr rfl)

/-- Claim C8: in the batch-payment contract, any item with amount ≤ 0 panics the whole
batch_transfer call and nothing is returned — item-level failure isolation does not
apply; when all amounts are positive the call performs exactly one token transfer and
one payment event per item in input order, followed by one batch-completion event. -/
theorem C8_payment_all_or_nothing :
    ∀ src tok seq payments,
      ((∃ p ∈ payments, p.amount ≤ 0) →
        BatchPayment.batch_transfer src tok seq payments = none) ∧
      ((∀ p ∈ payments, 0 < p.amount) →
        BatchPayment.batch_transfer src tok seq payments =
          some (payments.map
              (fun p => { src := src, dst := p.recipient, amount := p.amount }),
            payments.map
              (fun p => BatchPayment.Event.payment seq p.recipient tok p.amount) ++
              [BatchPayment.Event.batchComplete seq payments.length
                (payments.foldl (fun t p => wrapI128 (t + p.amount)) 0)],
            [src])) := by
  intro src tok seq payments
  constructor
  · intro h
    unfold BatchPayment.batch_transfer
    rw [BatchPayment.payLoop_none src tok seq payments [] [] 0 0 h]
  · intro h
    unfold BatchPayment.batch_transfer
    rw [BatchPayment.payLoop_pos src tok seq payments [] [] 0 0 h]
    simp

set_option maxRecDepth 10000 in
/-- Witness for C8: a batch with a zero amount panics whole; an all-positive batch
performs its transfer, payment event and completion event. -/
theorem C8_payment_all_or_nothing_witness :
    BatchPayment.batch_transfer 1 5 42 [⟨2, 7⟩, ⟨3, 0⟩] = none ∧
    BatchPayment.batch_transfer 1 5 42 [⟨2, 7⟩] =
      some ([{ src := 1, dst := 2, amount := 7 }],
        [BatchPayment.Event.payment 42 2 5 7, BatchPayment.Event.batchComplete 42 1 7],
        [1]) := by
  constructor
  · exact (C8_payment_all_or_nothing 1 5 42 [⟨2, 7⟩, ⟨3, 0⟩]).1
      ⟨⟨3, 0⟩, by simp, by decide⟩
  · have h := (C8_payment_all_or_nothing 1 5 42 [⟨2, 7⟩]).2 (by decide)
    exact h.trans rfl

/-- Claim C9: for every payload list (including the empty list) batch_notify returns
without panicking, successful_count + len(failed_addresses) = len(payloads), a payload
counts as failed exactly when its message is empty, and failed users appear in
failed_addresses in input order. -/
theorem C9_notify_partition :
    ∀ admin payloads,
      (BatchNotify.batch_notify admin payloads).1.successful_count +
        (BatchNotify.batch_notify admin payloads).1.failed_addresses.length =
        payloads.length ∧
      (BatchNotify.batch_notify admin payloads).1.failed_addresses =
        (payloads.filter (fun p => p.message.isEmpty)).map (fun p => p.user) := by
  intro admin payloads
  obtain ⟨h1, h2⟩ := BatchNotify.dispatchLoop_spec payloads 0 [] []
  constructor
  · simpa [BatchNotify.batch_notify, BatchNotify.execute_dispatch] using h1
  · simpa [BatchNotify.batch_notify, BatchNotify.execute_dispatch] using h2

/-- Claim C10: every SavingsGoal stored by batch_set_savings_goals satisfies
0 ≤ current_amount ≤ target_amount, MIN_GOAL_AMOUNT ≤ target_amount ≤ MAX_GOAL_AMOUNT,
a deadline strictly greater than the ledger sequence at creation, and is_active = true;
an item violating any bound is recorded as a Failure carrying its user and error code,
and no goal is stored for it. -/
theorem C10_goal_invariant :
    ∀ st caller requests res st1 evs aus,
      SavingsGoals.batch_set_savings_goals st caller requests = some (res, st1, evs, aus) →
      (∀ gid g, st1.goals gid = some g →
        st.goals gid = some g ∨ SavingsGoals.GoalInvariant g) ∧
      (∀ i (h1 : i < requests.length) (h2 : i < res.results.length),
        ∀ c, SavingsGoals.validate_goal_request st.currentLedger (requests.get ⟨i, h1⟩) =
            some c →
          res.results.get ⟨i, h2⟩ =
            SavingsGoals.GoalResult.failure (requests.get ⟨i, h1⟩).user c) := by
  intro st caller requests res st1 evs aus h
  obtain ⟨hadm, hne, hle, hv⟩ := SavingsGoals.batch_goals_some h
  have hr : res = (SavingsGoals.runGoals st caller requests).1 := congrArg Prod.fst hv
  have hs : st1 = (SavingsGoals.runGoals st caller requests).2.1 :=
    congrArg (fun p => p.2.1) hv
  constructor
  · intro gid g hg
    have hg2 : (SavingsGoals.goalsFin st requests).goals gid = some g := by
      rw [hs] at hg
      exact hg
    exact SavingsGoals.goalsFin_goals st requests gid g hg2
  · subst hr
    intro i h1 h2 c hc
    have hecho := (SavingsGoals.goalsFin_results st requests).get h1 h2
    exact hecho.2 c hc

/-- Witness for C10: a concrete batch with a valid item (stored with the invariant) and
an invalid one (target below the minimum, recorded as Failure with the invalid-amount
code). -/
theorem C10_goal_invariant_witness :
    ∃ res st1 evs aus,
      SavingsGoals.batch_set_savings_goals exGoalsSt 1
        [⟨7, 0, 20000000, 100, 5⟩, ⟨8, 0, 5, 100, 0⟩] = some (res, st1, evs, aus) ∧
      st1.goals 1 = some ⟨1, 7, 0, 20000000, 5, 100, 50, true⟩ ∧
      (exGoalsSt.goals 1 = some ⟨1, 7, 0, 20000000, 5, 100, 50, true⟩ ∨
        SavingsGoals.GoalInvariant ⟨1, 7, 0, 20000000, 5, 100, 50, true⟩) ∧
      ∃ (h2 : 1 < res.results.length),
        res.results.get ⟨1, h2⟩ = SavingsGoals.GoalResult.failure 8 0 := by
  refine ⟨_, _, _, _, rfl, rfl, ?_, by decide, ?_⟩
  · exact (C10_goal_invariant exGoalsSt 1
      [⟨7, 0, 20000000, 100, 5⟩, ⟨8, 0, 5, 100, 0⟩] _ _ _ _ rfl).1 1 _ rfl
  · exact (C10_goal_invariant exGoalsSt 1
      [⟨7, 0, 20000000, 100, 5⟩, ⟨8, 0, 5, 100, 0⟩] _ _ _ _ rfl).2 1 (by decide)
      (by decide) 0 rfl
